import Mathlib

/-!
Chat dashboard coordination logic: a shallow embedding of the event handlers of
`react-frontend/src/components/ChatDashboard.jsx`.

* The component state (the `useState` cells) together with the objects the
  handlers allocate (media recorders with their closure variables) and an
  ordered log of the calls the handlers make to the outside (gateway calls,
  toasts, console output, device calls) form a `World`.
* A state setter is applied to the world at the point where the handler calls
  it; functional updates `setX(prev => f prev)` become `f` applied to the cell.
* An `await` on a gateway call is a parameter of the handler: the `Outcome`
  with which the promise settles.  `new Date().toISOString()` is a parameter too.
* A handler returns a `Run`: the world it leaves and the error it threw past
  its own boundary, if any.
-/

namespace ChatDashboard

/-! ## Values exchanged with the gateway -/

/-- Body of an error response: `error.response.data`, with its optional `detail`. -/
structure ErrorBody where
  detail : Option String
  deriving DecidableEq, Repr

/-- The `response` carried by a gateway error; `data` may be missing. -/
structure ErrorResponse where
  status : Nat
  data : Option ErrorBody
  deriving DecidableEq, Repr

/-- A thrown JavaScript error object.  A transport error (timeout, network down)
and a `TypeError` have a `message` and no `response`. -/
structure JsError where
  message : String
  response : Option ErrorResponse
  deriving DecidableEq, Repr

/-- A resolved gateway response; `data` may be missing. -/
structure Response (α : Type) where
  data : Option α
  deriving DecidableEq, Repr

/-- How an awaited gateway promise settles. -/
inductive Outcome (α : Type) where
  | resolved (response : Response α)
  | rejected (error : JsError)
  deriving DecidableEq, Repr

/-- Payload of `POST /api/chat`. -/
structure ChatPayload where
  success : Bool
  response : String
  timestamp : String
  loaded_sources : List String
  deriving DecidableEq, Repr

/-- Payload of `POST /api/clear_source`. -/
structure ClearPayload where
  success : Bool
  message : String
  deriving DecidableEq, Repr

/-- Payload of `POST /api/speech-to-text`. -/
structure SpeechPayload where
  success : Bool
  text : String
  deriving DecidableEq, Repr

/-- Payload of `POST /api/load_pdf`. -/
structure UploadPayload where
  success : Bool
  filename : String
  word_count : Nat
  deriving DecidableEq, Repr

/-- Payload of `POST /api/load_website`. -/
structure WebsitePayload where
  success : Bool
  url : String
  word_count : Nat
  deriving DecidableEq, Repr

/-- Payload of `GET /api/status`, kept abstract (the dashboard only stores it). -/
structure StatusPayload where
  status : String
  total_sources_loaded : Nat
  deriving DecidableEq, Repr

/-! ## Component data -/

inductive Role where
  | user
  | assistant
  | system
  deriving DecidableEq, Repr

/-- A transcript entry.  A field the source leaves out of the object literal is
`none` (`sources`) or `false` (`isError`). -/
structure ChatMessage where
  role : Role
  content : String
  timestamp : String
  sources : Option (List String)
  isError : Bool
  deriving DecidableEq, Repr

/-- A binary object: a recorded chunk, or the blob assembled from chunks. -/
structure Blob where
  bytes : List Nat
  mime : String
  deriving DecidableEq, Repr

/-- Value of `blob.size`. -/
def Blob.size (b : Blob) : Nat := b.bytes.length

/-- Value of `new Blob(parts, { type })`: the parts concatenated in order. -/
def Blob.ofParts (parts : List Blob) (mime : String) : Blob :=
  { bytes := (parts.map Blob.bytes).flatten, mime := mime }

/-- A `MediaRecorder` object together with the `currentAudioChunks` array that
its two callbacks close over (line 193). -/
structure Recorder where
  stream : Nat
  mimeType : String
  currentAudioChunks : List Blob
  deriving DecidableEq, Repr

/-- A `SpeechSynthesisUtterance`. -/
structure Utterance where
  text : String
  deriving DecidableEq, Repr

/-- Calls the handlers make to the outside, in the order they are made. -/
inductive Effect where
  | toastSuccess (msg : String)
  | toastError (msg : String)
  | consoleError (label : String)
  | consoleLog (label : String)
  | gatewaySendMessage (message sessionId : String)
  | gatewayGetStatus
  | gatewayClearSource (sourceType : String)
  | gatewaySpeechToText (audioBlob : Blob)
  | getUserMedia
  | recorderStart (recorder : Nat) (timeslice : Nat)
  | recorderStop (recorder : Nat)
  | tracksStop (stream : Nat)
  | toastLoading (msg : String)
  | gatewayUploadPDF (file : String)
  | gatewayLoadWebsite (url : String)
  | speechCancel
  | speechSpeak (utterance : Utterance)
  deriving DecidableEq, Repr

/-- The `useState` cells of the component, the recorder objects allocated so
far (a recorder is referred to by its index), and the effect log. -/
structure World where
  messages : List ChatMessage
  inputMessage : String
  isLoading : Bool
  sessionId : String
  isRecording : Bool
  mediaRecorder : Option Nat
  audioChunks : List Blob
  status : Option StatusPayload
  isSpeaking : Bool
  currentUtterance : Option Utterance
  recorders : List Recorder
  log : List Effect
  deriving DecidableEq, Repr

/-- State of a freshly mounted dashboard (the `useState` initial values). -/
def World.initial (sessionId : String) : World :=
  { messages := [], inputMessage := "", isLoading := false, sessionId := sessionId,
    isRecording := false, mediaRecorder := none, audioChunks := [], status := none,
    isSpeaking := false, currentUtterance := none, recorders := [], log := [] }

/-- Result of running a handler to completion. -/
structure Run where
  world : World
  threw : Option JsError
  deriving DecidableEq, Repr

/-- Record one outside call. -/
def emit (e : Effect) (w : World) : World :=
  { w with log := w.log ++ [e] }

/-- The error raised by reading a property of `undefined`. -/
def typeError (property : String) : JsError :=
  { message := "Cannot read properties of undefined (reading " ++ property ++ ")",
    response := none }

/-- Value of `error.response?.data?.detail`. -/
def errorDetail (error : JsError) : Option String :=
  (error.response.bind ErrorResponse.data).bind ErrorBody.detail

/-- Value of `detail || fallback` for an optional string: the empty string is falsy. -/
def orDefault (detail : Option String) (fallback : String) : String :=
  match detail with
  | some d => if d = "" then fallback else d
  | none => fallback

/-! ## Whitespace, as `String.prototype.trim` sees it -/

/-- WhiteSpace and LineTerminator code points of ECMAScript. -/
def isJsWhiteSpace (c : Char) : Bool :=
  let n := c.toNat
  n = 0x09 || n = 0x0A || n = 0x0B || n = 0x0C || n = 0x0D || n = 0x20 ||
  n = 0xA0 || n = 0x1680 || (0x2000 ≤ n && n ≤ 0x200A) || n = 0x2028 ||
  n = 0x2029 || n = 0x202F || n = 0x205F || n = 0x3000 || n = 0xFEFF

/-- Value of `s.trim()`. -/
def jsTrim (s : String) : String :=
  ⟨((s.data.dropWhile isJsWhiteSpace).reverse.dropWhile isJsWhiteSpace).reverse⟩

/-- Truth value of `!s.trim()`. -/
def isBlank (s : String) : Bool :=
  jsTrim s = ""

/-! ## Status refresh and source clearing -/

/-- Handler `loadStatus` (lines 53-60). -/
def loadStatus (statusOutcome : Outcome StatusPayload) (w : World) : Run :=
  let w := emit .gatewayGetStatus w
  match statusOutcome with
  | .resolved response => { world := { w with status := response.data }, threw := none }
  | .rejected _ => { world := emit (.consoleError "Failed to load status:") w, threw := none }

/-- The `try` block of `clearSources` after its `await` (lines 171-175). -/
def clearSourcesTry (response : Response ClearPayload) (statusOutcome : Outcome StatusPayload)
    (w : World) : Run :=
  match response.data with
  | none => { world := w, threw := some (typeError "success") }
  | some data =>
    if data.success then
      let w := emit (.toastSuccess data.message) w
      let r := loadStatus statusOutcome w
      match r.threw with
      | some e => { world := r.world, threw := some e }
      | none => { world := { r.world with messages := [] }, threw := none }
    else
      { world := w, threw := none }

/-- The `catch` block of `clearSources` (lines 177-178). -/
def clearSourcesCatch (error : JsError) (w : World) : Run :=
  { world := emit (.toastError (orDefault (errorDetail error) "Failed to clear sources")) w,
    threw := none }

/-- Handler `clearSources` (lines 167-180); an omitted argument is `all`. -/
def clearSources (sourceType : Option String) (outcome : Outcome ClearPayload)
    (statusOutcome : Outcome StatusPayload) (w : World) : Run :=
  let sourceType := sourceType.getD "all"
  let w := emit (.gatewayClearSource sourceType) w
  let r : Run :=
    match outcome with
    | .resolved response => clearSourcesTry response statusOutcome w
    | .rejected error => { world := w, threw := some error }
  match r.threw with
  | some error => clearSourcesCatch error r.world
  | none => r

/-! ## Sending a message -/

/-- Where `sendMessage` stands once its synchronous prefix has run: it has
returned without doing anything, or it has issued the gateway call for
`messageText` and is suspended at the `await` of line 76. -/
inductive Suspended where
  | returned (w : World)
  | awaiting (w : World) (messageText : String)
  deriving DecidableEq, Repr

/-- Lines 62-76 of `sendMessage`, up to and including the call
`chatAPI.sendMessage(messageText, sessionId)`; an omitted argument is the
current input buffer. -/
def sendMessageBegin (messageText : Option String) (now : String) (w : World) : Suspended :=
  let messageText := messageText.getD w.inputMessage
  if isBlank messageText then .returned w
  else
    let userMessage : ChatMessage :=
      { role := .user, content := messageText, timestamp := now, sources := none,
        isError := false }
    let w := { w with messages := w.messages ++ [userMessage] }
    let w := { w with inputMessage := "" }
    let w := { w with isLoading := true }
    .awaiting (emit (.gatewaySendMessage messageText w.sessionId) w) messageText

/-- The `try` block of `sendMessage` after its `await` (lines 78-90). -/
def sendMessageTry (response : Response ChatPayload) (statusOutcome : Outcome StatusPayload)
    (w : World) : Run :=
  match response.data with
  | none => { world := w, threw := some (typeError "success") }
  | some data =>
    if data.success then
      let assistantMessage : ChatMessage :=
        { role := .assistant, content := data.response, timestamp := data.timestamp,
          sources := some data.loaded_sources, isError := false }
      let w := { w with messages := w.messages ++ [assistantMessage] }
      loadStatus statusOutcome w
    else
      { world := emit (.toastError "Failed to get response from assistant") w, threw := none }

/-- The `catch` block of `sendMessage` (lines 92-102). -/
def sendMessageCatch (error : JsError) (now : String) (w : World) : Run :=
  let errorMessage := orDefault (errorDetail error) "Failed to send message"
  let w := emit (.toastError errorMessage) w
  let errorChatMessage : ChatMessage :=
    { role := .assistant, content := "Sorry, I encountered an error: " ++ errorMessage,
      timestamp := now, sources := none, isError := true }
  { world := { w with messages := w.messages ++ [errorChatMessage] }, threw := none }

/-- Lines 76-105 of `sendMessage`: the gateway promise settles with `outcome`,
then `try`, `catch` and `finally` run. -/
def sendMessageResume (outcome : Outcome ChatPayload) (statusOutcome : Outcome StatusPayload)
    (now : String) (w : World) : Run :=
  let r : Run :=
    match outcome with
    | .resolved response => sendMessageTry response statusOutcome w
    | .rejected error => { world := w, threw := some error }
  let r : Run :=
    match r.threw with
    | some error => sendMessageCatch error now r.world
    | none => r
  { world := { r.world with isLoading := false }, threw := r.threw }

/-- Handler `sendMessage` (lines 62-106) run to completion.  The clock reads
`sentAt` for the user message and `failedAt` for the error message. -/
def sendMessage (messageText : Option String) (sentAt : String) (outcome : Outcome ChatPayload)
    (statusOutcome : Outcome StatusPayload) (failedAt : String) (w : World) : Run :=
  match sendMessageBegin messageText sentAt w with
  | .returned w => { world := w, threw := none }
  | .awaiting w _ => sendMessageResume outcome statusOutcome failedAt w

/-! ## Recording -/

/-- How `navigator.mediaDevices.getUserMedia` settles: with a stream, or with
an error (permission denied, no device). -/
inductive Microphone where
  | granted (stream : Nat)
  | denied (error : JsError)
  deriving DecidableEq, Repr

/-- What the browser answers to the device calls of one `startRecording`. -/
structure RecordingEnv where
  microphone : Microphone
  opusSupported : Bool
  constructorError : Option JsError
  startError : Option JsError
  deriving DecidableEq, Repr

/-- The `try` block of `startRecording` (lines 184-243).  The recorder object
is allocated at the next free index, with an empty `currentAudioChunks`. -/
def startRecordingTry (env : RecordingEnv) (w : World) : Run :=
  let w := emit .getUserMedia w
  match env.microphone with
  | .denied error => { world := w, threw := some error }
  | .granted stream =>
    let w := { w with audioChunks := [] }
    let mimeType := if env.opusSupported then "audio/webm;codecs=opus" else "audio/webm"
    match env.constructorError with
    | some error => { world := w, threw := some error }
    | none =>
      let recorder := w.recorders.length
      let w := { w with recorders := w.recorders ++
        [{ stream := stream, mimeType := mimeType, currentAudioChunks := [] }] }
      match env.startError with
      | some error => { world := w, threw := some error }
      | none =>
        let w := emit (.recorderStart recorder 100) w
        let w := { w with mediaRecorder := some recorder }
        let w := { w with isRecording := true }
        { world := emit (.toastSuccess "🎤 Recording started - speak clearly!") w,
          threw := none }

/-- Handler `startRecording` (lines 182-248). -/
def startRecording (env : RecordingEnv) (w : World) : Run :=
  let r := startRecordingTry env w
  match r.threw with
  | some error =>
    let w := emit (.consoleError "Recording error:") r.world
    { world := emit (.toastError ("Failed to start recording: " ++ error.message)) w,
      threw := none }
  | none => r

/-- Handler `stopRecording` (lines 250-257).  The log records the call
`mediaRecorder.stop()`; on a recorder that is already inactive that call
returns without effect (MediaStream Recording, `stop()` step 2), so the
handler goes on.  The recorder index held in `mediaRecorder` always refers to
an allocated recorder; were it not to, the stream has no tracks to stop. -/
def stopRecording (w : World) : Run :=
  match w.mediaRecorder with
  | none => { world := w, threw := none }
  | some recorder =>
    let w := emit (.recorderStop recorder) w
    let w :=
      match w.recorders[recorder]? with
      | some r => emit (.tracksStop r.stream) w
      | none => w
    let w := { w with isRecording := false }
    { world := emit (.toastSuccess "Recording stopped, processing...") w, threw := none }

/-- Callback `recorder.ondataavailable` of recorder `recorder` (lines 202-207). -/
def recorderOnDataAvailable (recorder : Nat) (data : Blob) (w : World) : World :=
  if data.size > 0 then
    let push : Recorder → Recorder :=
      fun r => { r with currentAudioChunks := r.currentAudioChunks ++ [data] }
    let w := { w with recorders := w.recorders.modify push recorder }
    { w with audioChunks := w.audioChunks ++ [data] }
  else w

/-- The `try` block of `handleSpeechToText` after its `await` (lines 263-266). -/
def handleSpeechToTextTry (response : Response SpeechPayload) (w : World) : Run :=
  match response.data with
  | none => { world := w, threw := some (typeError "success") }
  | some data =>
    if data.success && data.text ≠ "" then
      let w := { w with inputMessage := data.text }
      { world := emit (.toastSuccess "Speech converted to text!") w, threw := none }
    else
      { world := w, threw := none }

/-- Handler `handleSpeechToText` (lines 259-271). -/
def handleSpeechToText (audioBlob : Blob) (outcome : Outcome SpeechPayload) (w : World) : Run :=
  let w := emit (.gatewaySpeechToText audioBlob) w
  let r : Run :=
    match outcome with
    | .resolved response => handleSpeechToTextTry response w
    | .rejected error => { world := w, threw := some error }
  match r.threw with
  | some error =>
    { world := emit (.toastError (orDefault (errorDetail error) "Speech recognition failed"))
        r.world,
      threw := none }
  | none => r

/-- Callback `recorder.onstop` of recorder `recorder` (lines 209-238); `outcome`
settles the transcribe call, should one be issued.  The device fires no event
on a recorder that was never allocated. -/
def recorderOnStop (recorder : Nat) (outcome : Outcome SpeechPayload) (w : World) : Run :=
  match w.recorders[recorder]? with
  | none => { world := w, threw := none }
  | some r =>
    let w := emit (.tracksStop r.stream) w
    let w :=
      if r.currentAudioChunks.length > 0 then
        let audioBlob := Blob.ofParts r.currentAudioChunks
          (if r.mimeType = "" then "audio/webm" else r.mimeType)
        let w := emit (.consoleLog "Audio blob created:") w
        let inner : Run :=
          if audioBlob.size > 0 then handleSpeechToText audioBlob outcome w
          else
            { world := emit (.toastError "No audio data recorded. Please try again.") w,
              threw := none }
        match inner.threw with
        | some _ =>
          emit (.toastError "Failed to process audio recording")
            (emit (.consoleError "Error processing audio:") inner.world)
        | none => inner.world
      else
        emit (.toastError "No audio data captured. Please try recording again.") w
    { world := { w with audioChunks := [] }, threw := none }

/-- What can happen to the recording part of the dashboard: the two button
handlers, and the two callbacks of any recorder. -/
inductive RecordingEvent where
  | start (env : RecordingEnv)
  | stop
  | dataAvailable (recorder : Nat) (data : Blob)
  | stopped (recorder : Nat) (outcome : Outcome SpeechPayload)
  deriving DecidableEq, Repr

/-- Run the handler of one event. -/
def RecordingEvent.apply (e : RecordingEvent) (w : World) : World :=
  match e with
  | .start env => (startRecording env w).world
  | .stop => (stopRecording w).world
  | .dataAvailable recorder data => recorderOnDataAvailable recorder data w
  | .stopped recorder outcome => (recorderOnStop recorder outcome w).world

/-- Run the handlers of a sequence of events, in order. -/
def runRecording (events : List RecordingEvent) (w : World) : World :=
  events.foldl (fun w e => e.apply w) w

/-- The chunks that the events deliver to recorder `recorder`, in delivery order. -/
def delivered (recorder : Nat) (events : List RecordingEvent) : List Blob :=
  events.filterMap fun e =>
    match e with
    | .dataAvailable r data => if r = recorder then some data else none
    | _ => none

/-- The effects a handler added to the log of the world it started from. -/
def effectsSince (before after : World) : List Effect :=
  after.log.drop before.log.length

/-! ## Text to speech -/

/-- Handler `stopTextToSpeech` (lines 308-315); `speechSynthesis` is the truth
value of `'speechSynthesis' in window`. -/
def stopTextToSpeech (speechSynthesis : Bool) (w : World) : Run :=
  if speechSynthesis && w.isSpeaking then
    let w := emit .speechCancel w
    let w := { w with isSpeaking := false }
    let w := { w with currentUtterance := none }
    { world := emit (.toastSuccess "Audio stopped") w, threw := none }
  else
    { world := w, threw := none }

/-- Handler `handleTextToSpeech` (lines 273-306).  The utterance carries its
text (rate, pitch and volume are the constants of lines 281-283); `messageId`
is received and not used, as in the source. -/
def handleTextToSpeech (speechSynthesis : Bool) (text : String) (messageId : Nat)
    (w : World) : Run :=
  let _ := messageId
  if speechSynthesis then
    let w := if w.isSpeaking then (stopTextToSpeech speechSynthesis w).world else w
    let utterance : Utterance := { text := text }
    let w := emit (.speechSpeak utterance) w
    { world := emit (.toastSuccess "Playing audio...") w, threw := none }
  else
    { world := emit (.toastError "Text-to-speech not supported in this browser") w,
      threw := none }

/-- Callback `utterance.onstart` (lines 285-288). -/
def utteranceOnStart (utterance : Utterance) (w : World) : World :=
  let w := { w with isSpeaking := true }
  { w with currentUtterance := some utterance }

/-- Callback `utterance.onend` (lines 290-293). -/
def utteranceOnEnd (w : World) : World :=
  let w := { w with isSpeaking := false }
  { w with currentUtterance := none }

/-- Callback `utterance.onerror` (lines 295-299). -/
def utteranceOnError (w : World) : World :=
  let w := { w with isSpeaking := false }
  let w := { w with currentUtterance := none }
  emit (.toastError "Speech playback failed") w

/-- The utterances the speech engine holds after the calls of a log, oldest
first: `speak` adds its utterance at the end of the queue of the engine and
`cancel` removes every utterance from it (Web Speech API). -/
def pendingUtterances (log : List Effect) : List Utterance :=
  log.foldl
    (fun queue e =>
      match e with
      | .speechSpeak u => queue ++ [u]
      | .speechCancel => []
      | _ => queue)
    []

/-! ## Document and website loading -/

/-- The `try` block of `handleFileUpload` after its `await` (lines 123-134). -/
def handleFileUploadTry (response : Response UploadPayload)
    (statusOutcome : Outcome StatusPayload) (now : String) (w : World) : Run :=
  match response.data with
  | none => { world := w, threw := some (typeError "success") }
  | some data =>
    if data.success then
      let w := emit (.toastSuccess "PDF uploaded successfully!") w
      let r := loadStatus statusOutcome w
      match r.threw with
      | some e => { world := r.world, threw := some e }
      | none =>
        let systemMessage : ChatMessage :=
          { role := .system,
            content := "📄 PDF uploaded: " ++ data.filename ++ " (" ++
              toString data.word_count ++ " words)",
            timestamp := now, sources := none, isError := false }
        { world := { r.world with messages := r.world.messages ++ [systemMessage] },
          threw := none }
    else
      { world := w, threw := none }

/-- Handler `handleFileUpload` (lines 115-139); `file` is the name of the file
handed over, if any.  The state is touched only after the `await`. -/
def handleFileUpload (file : Option String) (outcome : Outcome UploadPayload)
    (statusOutcome : Outcome StatusPayload) (now : String) (w : World) : Run :=
  match file with
  | none => { world := w, threw := none }
  | some file =>
    let w := emit (.toastLoading "Uploading and processing file...") w
    let w := emit (.gatewayUploadPDF file) w
    let r : Run :=
      match outcome with
      | .resolved response => handleFileUploadTry response statusOutcome now w
      | .rejected error => { world := w, threw := some error }
    match r.threw with
    | some error =>
      { world := emit (.toastError (orDefault (errorDetail error) "Failed to upload PDF"))
          r.world,
        threw := none }
    | none => r

/-- The `try` block of `handleWebsiteLoad` after its `await` (lines 149-160). -/
def handleWebsiteLoadTry (response : Response WebsitePayload)
    (statusOutcome : Outcome StatusPayload) (now : String) (w : World) : Run :=
  match response.data with
  | none => { world := w, threw := some (typeError "success") }
  | some data =>
    if data.success then
      let w := emit (.toastSuccess "Website content loaded successfully!") w
      let r := loadStatus statusOutcome w
      match r.threw with
      | some e => { world := r.world, threw := some e }
      | none =>
        let systemMessage : ChatMessage :=
          { role := .system,
            content := "🌐 Website loaded: " ++ data.url ++ " (" ++
              toString data.word_count ++ " words)",
            timestamp := now, sources := none, isError := false }
        { world := { r.world with messages := r.world.messages ++ [systemMessage] },
          threw := none }
    else
      { world := w, threw := none }

/-- Handler `handleWebsiteLoad` (lines 141-165). -/
def handleWebsiteLoad (url : String) (outcome : Outcome WebsitePayload)
    (statusOutcome : Outcome StatusPayload) (now : String) (w : World) : Run :=
  if isBlank url then { world := w, threw := none }
  else
    let w := emit (.toastLoading "Loading website content...") w
    let w := emit (.gatewayLoadWebsite url) w
    let r : Run :=
      match outcome with
      | .resolved response => handleWebsiteLoadTry response statusOutcome now w
      | .rejected error => { world := w, threw := some error }
    match r.threw with
    | some error =>
      { world := emit (.toastError (orDefault (errorDetail error) "Failed to load website"))
          r.world,
        threw := none }
    | none => r

/-- A step that can change the transcript without clearing it: the synchronous
prefix of a send, the completion of a send, of a PDF upload, of a website load. -/
inductive TranscriptStep where
  | sendBegin (messageText : Option String) (now : String)
  | sendSettle (outcome : Outcome ChatPayload) (statusOutcome : Outcome StatusPayload)
      (now : String)
  | fileUpload (file : Option String) (outcome : Outcome UploadPayload)
      (statusOutcome : Outcome StatusPayload) (now : String)
  | websiteLoad (url : String) (outcome : Outcome WebsitePayload)
      (statusOutcome : Outcome StatusPayload) (now : String)
  deriving DecidableEq, Repr

/-- The world a suspended or returned `sendMessage` has left so far. -/
def Suspended.world (s : Suspended) : World :=
  match s with
  | .returned w => w
  | .awaiting w _ => w

/-- Run one transcript step. -/
def TranscriptStep.apply (step : TranscriptStep) (w : World) : World :=
  match step with
  | .sendBegin messageText now => (sendMessageBegin messageText now w).world
  | .sendSettle outcome statusOutcome now =>
    (sendMessageResume outcome statusOutcome now w).world
  | .fileUpload file outcome statusOutcome now =>
    (handleFileUpload file outcome statusOutcome now w).world
  | .websiteLoad url outcome statusOutcome now =>
    (handleWebsiteLoad url outcome statusOutcome now w).world

/-- Run transcript steps in the order in which they complete. -/
def runTranscript (steps : List TranscriptStep) (w : World) : World :=
  steps.foldl (fun w step => step.apply w) w

/-! ## The send controls -/

/-- Attribute `disabled` of the send button (line 584). -/
def sendButtonDisabled (w : World) : Bool :=
  isBlank w.inputMessage || w.isLoading

/-- Attribute `disabled` of the message textarea (line 578). -/
def messageInputDisabled (w : World) : Bool :=
  w.isLoading

/-- The dashboard together with the number of send-message gateway calls that
were issued and have not settled yet. -/
structure Session where
  world : World
  outstanding : Nat
  deriving DecidableEq, Repr

/-- The call `sendMessage()` made by a control: the synchronous prefix runs, and
a gateway call it issues is outstanding from then on. -/
def Session.callSendMessage (now : String) (s : Session) : Session :=
  match sendMessageBegin none now s.world with
  | .returned w => { s with world := w }
  | .awaiting w _ => { world := w, outstanding := s.outstanding + 1 }

/-- Handler `handleKeyPress` (lines 108-113). -/
def handleKeyPress (key : String) (shiftKey : Bool) (now : String) (s : Session) : Session :=
  if key = "Enter" && !shiftKey then s.callSendMessage now else s

/-- What the user and the network can do to the send part of the dashboard.
A disabled control delivers no event to its handler. -/
inductive SessionEvent where
  | clickSend (now : String)
  | keyPress (key : String) (shiftKey : Bool) (now : String)
  | change (value : String)
  | settle (outcome : Outcome ChatPayload) (statusOutcome : Outcome StatusPayload)
      (now : String)
  | recording (e : RecordingEvent)
  deriving DecidableEq, Repr

/-- Run the handler of one session event. -/
def SessionEvent.apply (e : SessionEvent) (s : Session) : Session :=
  match e with
  | .clickSend now =>
    if sendButtonDisabled s.world then s else s.callSendMessage now
  | .keyPress key shiftKey now =>
    if messageInputDisabled s.world then s else handleKeyPress key shiftKey now s
  | .change value =>
    if messageInputDisabled s.world then s
    else { s with world := { s.world with inputMessage := value } }
  | .settle outcome statusOutcome now =>
    if s.outstanding = 0 then s
    else
      { world := (sendMessageResume outcome statusOutcome now s.world).world,
        outstanding := s.outstanding - 1 }
  | .recording e => { s with world := e.apply s.world }

/-- Run the handlers of a sequence of session events, in order. -/
def runSession (events : List SessionEvent) (s : Session) : Session :=
  events.foldl (fun s e => e.apply s) s

/-! ## The API client and the auth provider (`services/api.js`,
`contexts/AuthContext.jsx`, `App.jsx`) -/

/-- Contents of `localStorage`: keys with their values. -/
abbrev Storage := List (String × String)

/-- Value of `localStorage.getItem(key)`; `none` is `null`. -/
def Storage.getItem (s : Storage) (key : String) : Option String :=
  (s.find? (fun kv => kv.1 = key)).map Prod.snd

/-- Effect of `localStorage.removeItem(key)`. -/
def Storage.removeItem (s : Storage) (key : String) : Storage :=
  s.filter (fun kv => kv.1 ≠ key)

/-- Effect of `localStorage.setItem(key, value)`. -/
def Storage.setItem (s : Storage) (key value : String) : Storage :=
  s.removeItem key ++ [(key, value)]

/-- What outlives a handler outside the React state: `localStorage`,
`window.location.href` (as a path), and the default `Authorization` header of
the shared axios instance. -/
structure Browser where
  localStorage : Storage
  location : String
  defaultAuthorization : Option String
  deriving DecidableEq, Repr

/-- The user object of the auth context. -/
structure UserProfile where
  name : String
  email : String
  deriving DecidableEq, Repr

/-- The `useState` cells of `AuthProvider`; `user = none` is `null`. -/
structure AuthState where
  user : Option UserProfile
  loading : Bool
  deriving DecidableEq, Repr

/-- State of a freshly mounted `AuthProvider` (lines 15-16). -/
def AuthState.initial : AuthState :=
  { user := none, loading := true }

/-- The response interceptor of `api.js` (lines 26-38), applied to the way the
request settled: a response is passed on, an error with status 401 clears the
stored token and user and sends the window to `/login`, and every error is
passed on as a rejection. -/
def responseInterceptor {α : Type} (settled : Outcome α) (b : Browser) :
    Browser × Outcome α :=
  match settled with
  | .resolved response => (b, .resolved response)
  | .rejected error =>
    let b :=
      if error.response.map ErrorResponse.status = some 401 then
        let b := { b with localStorage := b.localStorage.removeItem "token" }
        let b := { b with localStorage := b.localStorage.removeItem "user" }
        { b with location := "/login" }
      else b
    (b, .rejected error)

/-- The mount effect of `AuthProvider` (lines 18-37).  `parse` is `JSON.parse`
on the stored user data: `none` when it throws, `some none` when the text is
the JSON `null`.  A stored string is truthy when it is not empty. -/
def authProviderInit (parse : String → Option (Option UserProfile)) (b : Browser)
    (a : AuthState) : Browser × AuthState :=
  let token := b.localStorage.getItem "token"
  let (b, a) :=
    match token with
    | none => (b, a)
    | some token =>
      if token = "" then (b, a)
      else
        let b := { b with defaultAuthorization := some ("Bearer " ++ token) }
        match b.localStorage.getItem "user" with
        | none => (b, a)
        | some userData =>
          if userData = "" then (b, a)
          else
            match parse userData with
            | some user => (b, { a with user := user })
            | none =>
              let b := { b with localStorage := b.localStorage.removeItem "token" }
              let b := { b with localStorage := b.localStorage.removeItem "user" }
              (b, a)
  (b, { a with loading := false })

/-- The application starting on a loaded page: the script state is fresh (no
default header, initial `AuthProvider` cells) and the mount effect runs. -/
def appStart (parse : String → Option (Option UserProfile)) (b : Browser) :
    Browser × AuthState :=
  authProviderInit parse { b with defaultAuthorization := none } AuthState.initial

/-- What a route wrapper renders. -/
inductive Rendered where
  | loadingSpinner
  | children
  | navigate (target : String)
  deriving DecidableEq, Repr

/-- Component `ProtectedRoute` of `App.jsx` (lines 13-21). -/
def protectedRoute (a : AuthState) : Rendered :=
  if a.loading then .loadingSpinner
  else
    match a.user with
    | some _ => .children
    | none => .navigate "/login"

/-- A request configuration, as far as the request interceptor is concerned:
`authorization` is `config.headers.Authorization`. -/
structure RequestConfig where
  url : String
  method : String
  authorization : Option String
  deriving DecidableEq, Repr

/-- The request interceptor of `api.js` (lines 12-24): a stored token that is
truthy (not empty) is written into the `Authorization` header of the request. -/
def requestInterceptor (b : Browser) (config : RequestConfig) : RequestConfig :=
  match b.localStorage.getItem "token" with
  | none => config
  | some token =>
    if token = "" then config
    else { config with authorization := some ("Bearer " ++ token) }

/-- Payload of `POST /api/login` and of `POST /api/signup`. -/
structure AuthPayload where
  user : UserProfile
  token : String
  deriving DecidableEq, Repr

/-- The object `login` and `signup` return: `success`, with `data` on success
and `error` on failure. -/
structure AuthResult where
  success : Bool
  data : Option AuthPayload
  error : Option String
  deriving DecidableEq, Repr

/-- How a function of the auth context ends: it returns a value, or it throws. -/
inductive Completion (ρ : Type) where
  | returned (value : ρ)
  | threw (error : JsError)
  deriving DecidableEq, Repr

/-- What a function of the auth context leaves behind. -/
structure AuthRun (ρ : Type) where
  browser : Browser
  auth : AuthState
  completion : Completion ρ
  deriving DecidableEq, Repr

/-- The `try` block of `login` (lines 41-52).  `api.post` settles with `settled`
and runs the response interceptor; `stringify` is `JSON.stringify` on the user.
The request body (email, password) has no part in what follows. -/
def loginTry (stringify : UserProfile → String) (settled : Outcome AuthPayload)
    (b : Browser) (a : AuthState) : AuthRun AuthResult :=
  let (b, outcome) := responseInterceptor settled b
  match outcome with
  | .rejected error => { browser := b, auth := a, completion := .threw error }
  | .resolved response =>
    match response.data with
    | none => { browser := b, auth := a, completion := .threw (typeError "user") }
    | some data =>
      let b := { b with localStorage := b.localStorage.setItem "token" data.token }
      let b := { b with localStorage := b.localStorage.setItem "user" (stringify data.user) }
      let b := { b with defaultAuthorization := some ("Bearer " ++ data.token) }
      let a := { a with user := some data.user }
      { browser := b, auth := a,
        completion := .returned { success := true, data := some data, error := none } }

/-- Function `login` of the auth context (lines 39-57). -/
def login (stringify : UserProfile → String) (settled : Outcome AuthPayload)
    (b : Browser) (a : AuthState) : AuthRun AuthResult :=
  let r := loginTry stringify settled b a
  match r.completion with
  | .threw error =>
    let message := orDefault (errorDetail error) "Login failed"
    let result : AuthResult := { success := false, data := none, error := some message }
    { r with completion := .returned result }
  | .returned _ => r

/-- The `try` block of `signup` (lines 61-72). -/
def signupTry (stringify : UserProfile → String) (settled : Outcome AuthPayload)
    (b : Browser) (a : AuthState) : AuthRun AuthResult :=
  let (b, outcome) := responseInterceptor settled b
  match outcome with
  | .rejected error => { browser := b, auth := a, completion := .threw error }
  | .resolved response =>
    match response.data with
    | none => { browser := b, auth := a, completion := .threw (typeError "user") }
    | some data =>
      let b := { b with localStorage := b.localStorage.setItem "token" data.token }
      let b := { b with localStorage := b.localStorage.setItem "user" (stringify data.user) }
      let b := { b with defaultAuthorization := some ("Bearer " ++ data.token) }
      let a := { a with user := some data.user }
      { browser := b, auth := a,
        completion := .returned { success := true, data := some data, error := none } }

/-- Function `signup` of the auth context (lines 59-77). -/
def signup (stringify : UserProfile → String) (settled : Outcome AuthPayload)
    (b : Browser) (a : AuthState) : AuthRun AuthResult :=
  let r := signupTry stringify settled b a
  match r.completion with
  | .threw error =>
    let message := orDefault (errorDetail error) "Signup failed"
    let result : AuthResult := { success := false, data := none, error := some message }
    { r with completion := .returned result }
  | .returned _ => r

/-- The `try` block of `logout` (line 81): the call settles, through the
response interceptor, and a rejection is thrown. -/
def logoutTry (settled : Outcome Unit) (b : Browser) (a : AuthState) : AuthRun Unit :=
  let (b, outcome) := responseInterceptor settled b
  match outcome with
  | .rejected error => { browser := b, auth := a, completion := .threw error }
  | .resolved _ => { browser := b, auth := a, completion := .returned () }

/-- Function `logout` of the auth context (lines 79-92).  The `catch` block
writes the error to the console and drops it; then the local session is cleared. -/
def logout (settled : Outcome Unit) (b : Browser) (a : AuthState) : AuthRun Unit :=
  let r := logoutTry settled b a
  let r : AuthRun Unit :=
    match r.completion with
    | .threw _ => { r with completion := .returned () }
    | .returned _ => r
  let b := r.browser
  let b := { b with localStorage := b.localStorage.removeItem "token" }
  let b := { b with localStorage := b.localStorage.removeItem "user" }
  let b := { b with defaultAuthorization := none }
  { browser := b, auth := { r.auth with user := none }, completion := r.completion }

/-! ## Concrete values used in the examples -/

/-- The user message of the send scenarios. -/
def helloMessage : ChatMessage :=
  { role := .user, content := "Hello", timestamp := "T0", sources := none, isError := false }

/-- A dashboard whose transcript holds one message. -/
def worldWithHello : World :=
  { World.initial "session-1" with messages := [helloMessage] }

/-- A transport error: the request timed out, so there is no response. -/
def timeoutError : JsError :=
  { message := "timeout", response := none }

/-- A server error whose body carries a detail. -/
def detailedError (detail : String) : JsError :=
  { message := "Request failed with status code 500",
    response := some { status := 500, data := some { detail := some detail } } }

/-- The user message `sendMessage` appends for `text` at time `now`. -/
def userMessage (text now : String) : ChatMessage :=
  { role := .user, content := text, timestamp := now, sources := none, isError := false }

/-- The test of line 203: the chunk has positive size. -/
def keepsChunk (data : Blob) : Bool := data.size > 0

/-- The recorder object after further chunks were pushed on its array. -/
def Recorder.pushAll (r : Recorder) (chunks : List Blob) : Recorder :=
  { r with currentAudioChunks := r.currentAudioChunks ++ chunks }

/-- The mime type `startRecording` asks the recorder for (lines 197-199). -/
def requestedMimeType (opusSupported : Bool) : String :=
  if opusSupported then "audio/webm;codecs=opus" else "audio/webm"

/-- Answers of the browser with which `startRecording` succeeds, on `stream`. -/
def RecordingEnv.working (stream : Nat) (opusSupported : Bool) : RecordingEnv :=
  { microphone := .granted stream, opusSupported := opusSupported,
    constructorError := none, startError := none }

/-- A dashboard on which one recording was started on stream 7. -/
def recordingWorld : World :=
  (startRecording (.working 7 true) (World.initial "session-1")).world

/-- A chunk of three bytes. -/
def voiceChunk : Blob :=
  { bytes := [1, 2, 3], mime := "audio/webm;codecs=opus" }

/-- A chunk of no bytes. -/
def emptyChunk : Blob :=
  { bytes := [], mime := "audio/webm;codecs=opus" }

/-- The dashboard after the recording received one chunk and the stop button
was pressed. -/
def stoppedWorld : World :=
  runRecording [.dataAvailable 0 voiceChunk, .stop] recordingWorld

/-- The dashboard after that recording was finalised and transcribed. -/
def finishedWorld : World :=
  (recorderOnStop 0 (.resolved ⟨some ⟨true, "hello there"⟩⟩) stoppedWorld).world

/-- A dashboard that is reading the assistant message `Hi!` aloud. -/
def speakingWorld : World :=
  utteranceOnStart { text := "Hi!" } (World.initial "session-1")


/-- A session on a freshly mounted dashboard: nothing outstanding. -/
def Session.initial (sessionId : String) : Session :=
  { world := World.initial sessionId, outstanding := 0 }

/-- The send part of the dashboard is consistent: either no send is
outstanding and the loading flag is clear, or one is and the flag is set. -/
def Session.Consistent (s : Session) : Prop :=
  (s.outstanding = 0 ∧ s.world.isLoading = false) ∨
  (s.outstanding = 1 ∧ s.world.isLoading = true)


/-- A browser holding a session: token and user are stored. -/
def signedInBrowser : Browser :=
  { localStorage := [("token", "abc"), ("user", "ada")],
    location := "/dashboard",
    defaultAuthorization := some "Bearer abc" }

/-- A server error with status 500 and no body. -/
def serverError : JsError :=
  { message := "Request failed with status code 500",
    response := some { status := 500, data := none } }


/-- A user profile. -/
def ada : UserProfile :=
  { name := "Ada", email := "ada@example.com" }

/-- A serialiser standing for `JSON.stringify` in the examples. -/
def exampleStringify (user : UserProfile) : String :=
  "[\"" ++ user.name ++ "\",\"" ++ user.email ++ "\"]"

/-- A parser standing for `JSON.parse` in the examples: it reads the text of
`ada` and the text `null`, and throws on everything else. -/
def exampleParse (text : String) : Option (Option UserProfile) :=
  if text = exampleStringify ada then some (some ada)
  else if text = "null" then some none
  else none

/-- A browser without a session. -/
def signedOutBrowser : Browser :=
  { localStorage := [], location := "/login", defaultAuthorization := none }

/-- A browser whose stored user data is damaged. -/
def damagedBrowser : Browser :=
  { localStorage := [("token", "abc"), ("user", "ada")],
    location := "/dashboard",
    defaultAuthorization := none }

/-- A request for the status. -/
def statusRequest : RequestConfig :=
  { url := "/api/status", method := "get", authorization := none }

/-! ## Whitespace -/

theorem dropWhile_eq_nil_iff_all {α : Type} (p : α → Bool) (l : List α) :
    l.dropWhile p = [] ↔ ∀ a ∈ l, p a = true := by
  induction l with
  | nil => simp
  | cons a t ih =>
    by_cases h : p a = true
    · simp [List.dropWhile_cons, h, ih]
    · simp [List.dropWhile_cons, h]

/-- The test `!s.trim()` holds exactly of the strings made of whitespace only
(the empty string among them). -/
theorem isBlank_iff (s : String) :
    isBlank s = true ↔ ∀ c ∈ s.data, isJsWhiteSpace c = true := by
  unfold isBlank jsTrim
  rw [decide_eq_true_iff]
  constructor
  · intro h
    have h1 : ((s.data.dropWhile isJsWhiteSpace).reverse.dropWhile isJsWhiteSpace).reverse
        = [] := by
      have := congrArg String.data h
      simpa using this
    rw [List.reverse_eq_nil_iff, dropWhile_eq_nil_iff_all] at h1
    have h2 : s.data.dropWhile isJsWhiteSpace = [] := by
      cases hd : s.data.dropWhile isJsWhiteSpace with
      | nil => rfl
      | cons a t =>
        have hna := List.head_dropWhile_not isJsWhiteSpace s.data (by rw [hd]; simp)
        have ha : isJsWhiteSpace a = true := h1 a (by rw [hd]; simp)
        simp [hd] at hna
        rw [ha] at hna
        exact absurd hna (by simp)
    exact (dropWhile_eq_nil_iff_all _ _).1 h2
  · intro h
    have h2 : s.data.dropWhile isJsWhiteSpace = [] := (dropWhile_eq_nil_iff_all _ _).2 h
    rw [h2]
    rfl

theorem isBlank_eq_false_iff (s : String) :
    isBlank s = false ↔ ∃ c ∈ s.data, isJsWhiteSpace c = false := by
  rw [← Bool.not_eq_true, isBlank_iff]
  simp

/-! ## Source clearing -/

theorem loadStatus_threw (statusOutcome : Outcome StatusPayload) (w : World) :
    (loadStatus statusOutcome w).threw = none := by
  cases statusOutcome <;> rfl

theorem loadStatus_messages (statusOutcome : Outcome StatusPayload) (w : World) :
    (loadStatus statusOutcome w).world.messages = w.messages := by
  cases statusOutcome <;> rfl

theorem clearSources_success (sourceType : Option String) (message : String)
    (statusOutcome : Outcome StatusPayload) (w : World) :
    (clearSources sourceType (.resolved ⟨some ⟨true, message⟩⟩) statusOutcome w).world.messages
      = [] := by
  simp [clearSources, clearSourcesTry, loadStatus_threw]

theorem clearSources_not_success (sourceType : Option String) (message : String)
    (statusOutcome : Outcome StatusPayload) (w : World) :
    (clearSources sourceType (.resolved ⟨some ⟨false, message⟩⟩) statusOutcome w).world.messages
      = w.messages := by
  simp [clearSources, clearSourcesTry, emit]

theorem clearSources_rejected (sourceType : Option String) (error : JsError)
    (statusOutcome : Outcome StatusPayload) (w : World) :
    (clearSources sourceType (.rejected error) statusOutcome w).world.messages
      = w.messages := by
  simp [clearSources, clearSourcesCatch, emit]

/-- C1, as the claim states it, fails: a successful `clearSources('pdf')` and a
successful `clearSources('website')` both turn a one-message transcript into the
empty one. -/
theorem clearSources_pdf_website_wipe_transcript :
    worldWithHello.messages = [helloMessage] ∧
    (clearSources (some "pdf") (.resolved ⟨some ⟨true, "PDF cleared"⟩⟩) (.resolved ⟨none⟩)
      worldWithHello).world.messages = [] ∧
    (clearSources (some "website") (.resolved ⟨some ⟨true, "Website cleared"⟩⟩)
      (.resolved ⟨none⟩) worldWithHello).world.messages = [] := by
  refine ⟨rfl, ?_, ?_⟩ <;> exact clearSources_success _ _ _ _

/-- C1 (amended): for every transcript and every successful clear-source
response, `clearSources('pdf')` and `clearSources('website')` empty the
transcript; they leave it exactly as it was when the response has
`success = false` and when the call is rejected. -/
theorem clearSources_pdf_website_transcript (w : World) (message : String) (error : JsError)
    (statusOutcome : Outcome StatusPayload) :
    (clearSources (some "pdf") (.resolved ⟨some ⟨true, message⟩⟩) statusOutcome
      w).world.messages = [] ∧
    (clearSources (some "website") (.resolved ⟨some ⟨true, message⟩⟩) statusOutcome
      w).world.messages = [] ∧
    (clearSources (some "pdf") (.resolved ⟨some ⟨false, message⟩⟩) statusOutcome
      w).world.messages = w.messages ∧
    (clearSources (some "website") (.resolved ⟨some ⟨false, message⟩⟩) statusOutcome
      w).world.messages = w.messages ∧
    (clearSources (some "pdf") (.rejected error) statusOutcome w).world.messages
      = w.messages ∧
    (clearSources (some "website") (.rejected error) statusOutcome w).world.messages
      = w.messages :=
  ⟨clearSources_success _ _ _ _, clearSources_success _ _ _ _,
   clearSources_not_success _ _ _ _, clearSources_not_success _ _ _ _,
   clearSources_rejected _ _ _ _, clearSources_rejected _ _ _ _⟩

/-- C2: `clearSources('all')`, called with the argument or with none, empties
the transcript when the response has `success = true`, and leaves the transcript
unchanged when the response has `success = false` or the call is rejected. -/
theorem clearSources_all_transcript (w : World) (message : String) (error : JsError)
    (statusOutcome : Outcome StatusPayload) :
    (clearSources (some "all") (.resolved ⟨some ⟨true, message⟩⟩) statusOutcome
      w).world.messages = [] ∧
    (clearSources none (.resolved ⟨some ⟨true, message⟩⟩) statusOutcome
      w).world.messages = [] ∧
    (clearSources (some "all") (.resolved ⟨some ⟨false, message⟩⟩) statusOutcome
      w).world.messages = w.messages ∧
    (clearSources none (.resolved ⟨some ⟨false, message⟩⟩) statusOutcome
      w).world.messages = w.messages ∧
    (clearSources (some "all") (.rejected error) statusOutcome w).world.messages
      = w.messages ∧
    (clearSources none (.rejected error) statusOutcome w).world.messages = w.messages :=
  ⟨clearSources_success _ _ _ _, clearSources_success _ _ _ _,
   clearSources_not_success _ _ _ _, clearSources_not_success _ _ _ _,
   clearSources_rejected _ _ _ _, clearSources_rejected _ _ _ _⟩

/-! ## Sending a message -/

theorem sendMessageBegin_blank (messageText : Option String) (now : String) (w : World)
    (h : isBlank (messageText.getD w.inputMessage) = true) :
    sendMessageBegin messageText now w = .returned w := by
  simp [sendMessageBegin, h]

theorem sendMessageBegin_issue (messageText : Option String) (now : String) (w : World)
    (h : isBlank (messageText.getD w.inputMessage) = false) :
    sendMessageBegin messageText now w =
      .awaiting
        { w with
          messages := w.messages ++ [userMessage (messageText.getD w.inputMessage) now]
          inputMessage := ""
          isLoading := true
          log := w.log ++ [.gatewaySendMessage (messageText.getD w.inputMessage) w.sessionId] }
        (messageText.getD w.inputMessage) := by
  simp [sendMessageBegin, h, emit, userMessage]

theorem sendMessage_rejected_messages (messageText : Option String) (sentAt failedAt : String)
    (error : JsError) (statusOutcome : Outcome StatusPayload) (w : World)
    (h : isBlank (messageText.getD w.inputMessage) = false) :
    (sendMessage messageText sentAt (.rejected error) statusOutcome failedAt w).world.messages =
      w.messages ++
        [userMessage (messageText.getD w.inputMessage) sentAt,
         { role := .assistant,
           content := "Sorry, I encountered an error: " ++
             orDefault (errorDetail error) "Failed to send message",
           timestamp := failedAt, sources := none, isError := true }] := by
  simp [sendMessage, sendMessageBegin_issue _ _ _ h, sendMessageResume, sendMessageCatch, emit]

/-- C3: for every prior transcript and every text that is not blank, passed as
the argument or taken from the input buffer, a gateway response
`success: true, response: r, timestamp: T, loaded_sources: s` leaves the
transcript equal to the prior one followed by the user message with that text
and then the assistant message with content `r`, timestamp `T`, sources `s`
and no error flag. -/
theorem sendMessage_success_transcript (messageText : Option String) (sentAt failedAt : String)
    (r T : String) (s : List String) (statusOutcome : Outcome StatusPayload) (w : World)
    (h : isBlank (messageText.getD w.inputMessage) = false) :
    (sendMessage messageText sentAt (.resolved ⟨some ⟨true, r, T, s⟩⟩) statusOutcome failedAt
      w).world.messages =
      w.messages ++
        [{ role := .user, content := messageText.getD w.inputMessage, timestamp := sentAt,
           sources := none, isError := false },
         { role := .assistant, content := r, timestamp := T, sources := some s,
           isError := false }] := by
  simp [sendMessage, sendMessageBegin_issue _ _ _ h, sendMessageResume, sendMessageTry,
    loadStatus_threw, loadStatus_messages, userMessage]

/-- The scenario of C3: from the empty transcript, sending `Hello` with the
response `Hi!` gives the user message `Hello` then the assistant message `Hi!`. -/
theorem sendMessage_success_transcript_witness :
    isBlank ((some "Hello").getD (World.initial "session-1").inputMessage) = false ∧
    (sendMessage (some "Hello") "T0" (.resolved ⟨some ⟨true, "Hi!", "T", []⟩⟩)
      (.resolved ⟨none⟩) "T1" (World.initial "session-1")).world.messages =
      (World.initial "session-1").messages ++
        [{ role := .user, content := (some "Hello").getD (World.initial "session-1").inputMessage,
           timestamp := "T0", sources := none, isError := false },
         { role := .assistant, content := "Hi!", timestamp := "T", sources := some [],
           isError := false }] :=
  ⟨by decide, sendMessage_success_transcript (some "Hello") "T0" "T1" "Hi!" "T" []
    (.resolved ⟨none⟩) (World.initial "session-1") (by decide)⟩

/-- C4, as the claim states it, fails.  A transport error with message `timeout`
has no response body, and the error message appended carries the generic reason
instead of `timeout`; a failure whose detail is the empty string gives the
generic reason as well. -/
theorem sendMessage_failure_detail_not_always_shown :
    (sendMessage (some "Hello") "T0" (.rejected timeoutError) (.resolved ⟨none⟩) "T1"
      (World.initial "session-1")).world.messages =
      [helloMessage,
       { role := .assistant,
         content := "Sorry, I encountered an error: Failed to send message",
         timestamp := "T1", sources := none, isError := true }] ∧
    (sendMessage (some "Hello") "T0" (.rejected (detailedError "")) (.resolved ⟨none⟩) "T1"
      (World.initial "session-1")).world.messages ≠
      [helloMessage,
       { role := .assistant, content := "Sorry, I encountered an error: " ++ "",
         timestamp := "T1", sources := none, isError := true }] := by
  constructor
  · rw [sendMessage_rejected_messages _ _ _ _ _ _ (by decide)]
    decide
  · rw [sendMessage_rejected_messages _ _ _ _ _ _ (by decide)]
    decide

/-- C4 (amended): for every prior transcript and every non-blank text, when the
gateway send call is rejected the transcript is the prior one followed by the
user message and then one assistant message with `isError = true`, whose
content is `Sorry, I encountered an error: ` followed by the detail of the
error's response body when that detail is present and not empty, and by
`Failed to send message` when the error has no response, no body, no detail or
an empty detail. -/
theorem sendMessage_failure_transcript (messageText : Option String) (sentAt failedAt : String)
    (error : JsError) (statusOutcome : Outcome StatusPayload) (w : World)
    (h : isBlank (messageText.getD w.inputMessage) = false) :
    (∀ d, errorDetail error = some d → d ≠ "" →
      (sendMessage messageText sentAt (.rejected error) statusOutcome failedAt w).world.messages
        = w.messages ++
          [{ role := .user, content := messageText.getD w.inputMessage, timestamp := sentAt,
             sources := none, isError := false },
           { role := .assistant, content := "Sorry, I encountered an error: " ++ d,
             timestamp := failedAt, sources := none, isError := true }]) ∧
    (errorDetail error = none ∨ errorDetail error = some "" →
      (sendMessage messageText sentAt (.rejected error) statusOutcome failedAt w).world.messages
        = w.messages ++
          [{ role := .user, content := messageText.getD w.inputMessage, timestamp := sentAt,
             sources := none, isError := false },
           { role := .assistant,
             content := "Sorry, I encountered an error: " ++ "Failed to send message",
             timestamp := failedAt, sources := none, isError := true }]) := by
  rw [sendMessage_rejected_messages _ _ _ _ _ _ h]
  constructor
  · intro d hd hne
    simp [hd, orDefault, hne, userMessage]
  · rintro (hd | hd) <;> simp [hd, orDefault, userMessage]

/-- The scenario of C4 with the detail in the response body, and the same
scenario for a transport error without a response. -/
theorem sendMessage_failure_transcript_witness :
    (sendMessage (some "Hello") "T0" (.rejected (detailedError "timeout")) (.resolved ⟨none⟩)
      "T1" (World.initial "session-1")).world.messages =
      (World.initial "session-1").messages ++
        [{ role := .user, content := (some "Hello").getD (World.initial "session-1").inputMessage,
           timestamp := "T0", sources := none, isError := false },
         { role := .assistant, content := "Sorry, I encountered an error: " ++ "timeout",
           timestamp := "T1", sources := none, isError := true }] ∧
    (sendMessage (some "Hello") "T0" (.rejected timeoutError) (.resolved ⟨none⟩)
      "T1" (World.initial "session-1")).world.messages =
      (World.initial "session-1").messages ++
        [{ role := .user, content := (some "Hello").getD (World.initial "session-1").inputMessage,
           timestamp := "T0", sources := none, isError := false },
         { role := .assistant,
           content := "Sorry, I encountered an error: " ++ "Failed to send message",
           timestamp := "T1", sources := none, isError := true }] :=
  ⟨(sendMessage_failure_transcript (some "Hello") "T0" "T1" (detailedError "timeout")
      (.resolved ⟨none⟩) (World.initial "session-1") (by decide)).1 "timeout" (by decide)
      (by decide),
   (sendMessage_failure_transcript (some "Hello") "T0" "T1" timeoutError
      (.resolved ⟨none⟩) (World.initial "session-1") (by decide)).2 (Or.inl (by decide))⟩

/-- C5: when the text, passed as the argument or taken from the input buffer,
is empty or made of whitespace only, `sendMessage` returns at once: whatever
the gateway would answer, the world it leaves is the world it started from
(transcript, input buffer, loading flag and log of calls included) and nothing
is thrown.  For every other text, at the point where the gateway call is
issued the user message has been appended, the input buffer is empty, the
loading flag is set, and that call is the only one added to the log. -/
theorem sendMessage_blank_noop_else_issue (messageText : Option String) (now : String)
    (w : World) :
    ((∀ c ∈ (messageText.getD w.inputMessage).data, isJsWhiteSpace c = true) →
      sendMessageBegin messageText now w = .returned w ∧
      ∀ (outcome : Outcome ChatPayload) (statusOutcome : Outcome StatusPayload)
        (failedAt : String),
        sendMessage messageText now outcome statusOutcome failedAt w
          = { world := w, threw := none }) ∧
    ((∃ c ∈ (messageText.getD w.inputMessage).data, isJsWhiteSpace c = false) →
      sendMessageBegin messageText now w =
        .awaiting
          { w with
            messages := w.messages ++
              [{ role := .user, content := messageText.getD w.inputMessage, timestamp := now,
                 sources := none, isError := false }]
            inputMessage := ""
            isLoading := true
            log := w.log ++
              [.gatewaySendMessage (messageText.getD w.inputMessage) w.sessionId] }
          (messageText.getD w.inputMessage)) := by
  constructor
  · intro h
    have hb := (isBlank_iff _).2 h
    refine ⟨sendMessageBegin_blank _ _ _ hb, ?_⟩
    intro outcome statusOutcome failedAt
    simp [sendMessage, sendMessageBegin_blank _ _ _ hb]
  · intro h
    have hb := (isBlank_eq_false_iff _).2 h
    simpa [userMessage] using sendMessageBegin_issue messageText now w hb

/-- C5 at a whitespace-only text and at the text `Hello`. -/
theorem sendMessage_blank_noop_else_issue_witness :
    (sendMessageBegin (some " \t\n") "T0" worldWithHello = .returned worldWithHello ∧
      ∀ (outcome : Outcome ChatPayload) (statusOutcome : Outcome StatusPayload)
        (failedAt : String),
        sendMessage (some " \t\n") "T0" outcome statusOutcome failedAt worldWithHello
          = { world := worldWithHello, threw := none }) ∧
    sendMessageBegin (some "Hello") "T0" worldWithHello =
      .awaiting
        { worldWithHello with
          messages := worldWithHello.messages ++
            [{ role := .user, content := (some "Hello").getD worldWithHello.inputMessage,
               timestamp := "T0", sources := none, isError := false }]
          inputMessage := ""
          isLoading := true
          log := worldWithHello.log ++
            [.gatewaySendMessage ((some "Hello").getD worldWithHello.inputMessage)
              worldWithHello.sessionId] }
        ((some "Hello").getD worldWithHello.inputMessage) :=
  ⟨(sendMessage_blank_noop_else_issue (some " \t\n") "T0" worldWithHello).1 (by decide),
   (sendMessage_blank_noop_else_issue (some "Hello") "T0" worldWithHello).2
     ⟨'H', by decide, by decide⟩⟩

/-- C6: `sendMessage` throws nothing past its boundary, for every text and
every gateway outcome: resolved with a payload, resolved without a `data`
field, or rejected with any error.  When the text is not blank, every rejected
gateway call leaves the transcript equal to the prior one followed by the user
message and one assistant entry flagged `isError`. -/
theorem sendMessage_never_throws (messageText : Option String) (sentAt failedAt : String)
    (statusOutcome : Outcome StatusPayload) (w : World) :
    (∀ outcome : Outcome ChatPayload,
      (sendMessage messageText sentAt outcome statusOutcome failedAt w).threw = none) ∧
    (isBlank (messageText.getD w.inputMessage) = false →
      ∀ error : JsError, ∃ entry : ChatMessage,
        entry.role = .assistant ∧ entry.isError = true ∧
        (sendMessage messageText sentAt (.rejected error) statusOutcome failedAt
          w).world.messages =
          w.messages ++
            [{ role := .user, content := messageText.getD w.inputMessage, timestamp := sentAt,
               sources := none, isError := false }, entry]) := by
  constructor
  · intro outcome
    cases hb : isBlank (messageText.getD w.inputMessage)
    · rw [sendMessage, sendMessageBegin_issue _ _ _ hb]
      rcases outcome with ⟨_ | ⟨ok, r, T, s⟩⟩ | error
      · simp [sendMessageResume, sendMessageTry, sendMessageCatch]
      · cases ok <;> simp [sendMessageResume, sendMessageTry, loadStatus_threw]
      · simp [sendMessageResume, sendMessageCatch]
    · simp [sendMessage, sendMessageBegin_blank _ _ _ hb]
  · intro hb error
    exact ⟨_, rfl, rfl, sendMessage_rejected_messages _ _ _ _ _ _ hb⟩

/-- C6 at the text `Hello`, for a rejection without a response body. -/
theorem sendMessage_never_throws_witness :
    isBlank ((some "Hello").getD (World.initial "session-1").inputMessage) = false ∧
    ∀ error : JsError, ∃ entry : ChatMessage,
      entry.role = .assistant ∧ entry.isError = true ∧
      (sendMessage (some "Hello") "T0" (.rejected error) (.resolved ⟨none⟩) "T1"
        (World.initial "session-1")).world.messages =
        (World.initial "session-1").messages ++
          [{ role := .user,
             content := (some "Hello").getD (World.initial "session-1").inputMessage,
             timestamp := "T0", sources := none, isError := false }, entry] :=
  ⟨by decide, (sendMessage_never_throws (some "Hello") "T0" "T1" (.resolved ⟨none⟩)
    (World.initial "session-1")).2 (by decide)⟩

/-! ## Recording -/

theorem startRecording_recorders_extend (env : RecordingEnv) (w : World) :
    ∃ more, (startRecording env w).world.recorders = w.recorders ++ more := by
  unfold startRecording startRecordingTry
  rcases env with ⟨mic, opus, ce, se⟩
  cases mic <;> cases ce <;> cases se <;> simp [emit]

theorem stopRecording_recorders (w : World) :
    (stopRecording w).world.recorders = w.recorders := by
  unfold stopRecording
  cases hm : w.mediaRecorder with
  | none => rfl
  | some r =>
    simp only [emit]
    cases w.recorders[r]? <;> rfl

/-- Shape of every run of `handleSpeechToText`: it throws nothing, touches only
the input buffer and the log, and adds to the log the transcribe call followed
by toasts only. -/
theorem handleSpeechToText_shape (b : Blob) (outcome : Outcome SpeechPayload) (w : World) :
    ∃ (input : String) (report : List Effect),
      handleSpeechToText b outcome w =
        { world := { w with inputMessage := input,
                            log := w.log ++ .gatewaySpeechToText b :: report },
          threw := none } ∧
      ∀ b', Effect.gatewaySpeechToText b' ∉ report := by
  unfold handleSpeechToText handleSpeechToTextTry
  rcases outcome with ⟨_ | ⟨ok, text⟩⟩ | error
  · exact ⟨w.inputMessage, [.toastError "Speech recognition failed"], by
      simp [emit, typeError, errorDetail, orDefault], by simp⟩
  · cases ok
    · exact ⟨w.inputMessage, [], by simp [emit], by simp⟩
    · by_cases ht : text = ""
      · exact ⟨w.inputMessage, [], by simp [emit, ht], by simp⟩
      · exact ⟨text, [.toastSuccess "Speech converted to text!"], by simp [emit, ht], by simp⟩
  · exact ⟨w.inputMessage, [.toastError (orDefault (errorDetail error)
      "Speech recognition failed")], by simp [emit], by simp⟩

/-- The blob assembled from chunks of positive size, one at least, has positive size. -/
theorem Blob.ofParts_size_pos (parts : List Blob) (mime : String) (hne : parts ≠ [])
    (hpos : ∀ c ∈ parts, c.size > 0) : (Blob.ofParts parts mime).size > 0 := by
  cases parts with
  | nil => exact absurd rfl hne
  | cons c t =>
    have hc : c.bytes.length > 0 := hpos c (by simp)
    simp only [Blob.ofParts, Blob.size, List.map_cons, List.flatten_cons, List.length_append]
    omega

/-- Run of `recorder.onstop` on a recorder that kept no chunk: the tracks are
stopped, the empty recording is reported, and no transcribe call is made. -/
theorem recorderOnStop_no_chunks (r : Nat) (outcome : Outcome SpeechPayload) (w : World)
    (rec : Recorder) (hr : w.recorders[r]? = some rec) (hc : rec.currentAudioChunks = []) :
    recorderOnStop r outcome w =
      { world := { w with
          audioChunks := []
          log := w.log ++ [.tracksStop rec.stream,
            .toastError "No audio data captured. Please try recording again."] },
        threw := none } := by
  simp [recorderOnStop, hr, hc, emit]

/-- Run of `recorder.onstop` on a recorder that kept chunks, all of positive
size: one transcribe call is made, with the blob assembled from those chunks. -/
theorem recorderOnStop_chunks (r : Nat) (outcome : Outcome SpeechPayload) (w : World)
    (rec : Recorder) (hr : w.recorders[r]? = some rec) (hne : rec.currentAudioChunks ≠ [])
    (hpos : ∀ c ∈ rec.currentAudioChunks, c.size > 0) :
    ∃ (input : String) (report : List Effect),
      recorderOnStop r outcome w =
        { world := { w with
            inputMessage := input
            audioChunks := []
            log := w.log ++ .tracksStop rec.stream :: .consoleLog "Audio blob created:" ::
              .gatewaySpeechToText (Blob.ofParts rec.currentAudioChunks
                (if rec.mimeType = "" then "audio/webm" else rec.mimeType)) :: report },
          threw := none } ∧
      ∀ b', Effect.gatewaySpeechToText b' ∉ report := by
  have hlen : rec.currentAudioChunks.length > 0 := List.length_pos.2 hne
  have hsize := Blob.ofParts_size_pos rec.currentAudioChunks
    (if rec.mimeType = "" then "audio/webm" else rec.mimeType) hne hpos
  obtain ⟨input, report, hrun, hrep⟩ := handleSpeechToText_shape
    (Blob.ofParts rec.currentAudioChunks
      (if rec.mimeType = "" then "audio/webm" else rec.mimeType)) outcome
    (emit (.consoleLog "Audio blob created:") (emit (.tracksStop rec.stream) w))
  refine ⟨input, report, ?_, hrep⟩
  simp only [recorderOnStop, hr, hlen, hsize, if_true, hrun]
  simp [emit]

theorem recorderOnStop_recorders (r : Nat) (outcome : Outcome SpeechPayload) (w : World) :
    (recorderOnStop r outcome w).world.recorders = w.recorders := by
  unfold recorderOnStop
  cases hr : w.recorders[r]? with
  | none => rfl
  | some rec =>
    simp only
    obtain ⟨input, report, hrun, -⟩ := handleSpeechToText_shape
      (Blob.ofParts rec.currentAudioChunks
        (if rec.mimeType = "" then "audio/webm" else rec.mimeType)) outcome
      (emit (.consoleLog "Audio blob created:") (emit (.tracksStop rec.stream) w))
    rw [hrun]
    split_ifs <;> rfl

theorem Recorder.pushAll_nil (r : Recorder) : r.pushAll [] = r := by
  simp [Recorder.pushAll]

theorem Recorder.pushAll_pushAll (r : Recorder) (a b : List Blob) :
    (r.pushAll a).pushAll b = r.pushAll (a ++ b) := by
  simp [Recorder.pushAll]

theorem delivered_cons (r : Nat) (e : RecordingEvent) (es : List RecordingEvent) :
    delivered r (e :: es) = delivered r [e] ++ delivered r es := by
  simp only [delivered, List.filterMap_cons, List.filterMap_nil]
  split <;> simp

/-- One event changes an allocated recorder only by pushing on its array the
chunk it delivers to that recorder, if the chunk has positive size. -/
theorem apply_recorder (e : RecordingEvent) (w : World) (r : Nat) (rec : Recorder)
    (hr : w.recorders[r]? = some rec) :
    (e.apply w).recorders[r]? = some (rec.pushAll ((delivered r [e]).filter keepsChunk)) := by
  have hlt : r < w.recorders.length := by
    rcases List.getElem?_eq_some.1 hr with ⟨h, -⟩
    exact h
  cases e with
  | start env =>
    obtain ⟨more, hmore⟩ := startRecording_recorders_extend env w
    simp only [RecordingEvent.apply, hmore, List.getElem?_append_left hlt, hr, delivered,
      List.filterMap_cons, List.filterMap_nil, List.filter_nil, Recorder.pushAll_nil]
  | stop =>
    simp only [RecordingEvent.apply, stopRecording_recorders, hr, delivered,
      List.filterMap_cons, List.filterMap_nil, List.filter_nil, Recorder.pushAll_nil]
  | dataAvailable r' data =>
    simp only [RecordingEvent.apply, recorderOnDataAvailable, delivered, List.filterMap_cons,
      List.filterMap_nil]
    by_cases hsize : data.size > 0
    · have hk : keepsChunk data = true := by simp [keepsChunk, hsize]
      by_cases hrr : r' = r
      · subst hrr
        simp [hsize, List.getElem?_modify, hr, hk, Recorder.pushAll]
      · simp [hsize, List.getElem?_modify, hr, hrr, Recorder.pushAll]
    · have hk : keepsChunk data = false := by simp [keepsChunk, hsize]
      by_cases hrr : r' = r
      · subst hrr
        simp [hsize, hr, hk, Recorder.pushAll]
      · simp [hsize, hr, hrr, Recorder.pushAll]
  | stopped r' outcome =>
    simp only [RecordingEvent.apply, recorderOnStop_recorders, hr, delivered,
      List.filterMap_cons, List.filterMap_nil, List.filter_nil, Recorder.pushAll_nil]

/-- A sequence of events changes an allocated recorder only by pushing on its
array the chunks of positive size delivered to that recorder, in delivery order. -/
theorem runRecording_recorder (events : List RecordingEvent) (w : World) (r : Nat)
    (rec : Recorder) (hr : w.recorders[r]? = some rec) :
    (runRecording events w).recorders[r]? =
      some (rec.pushAll ((delivered r events).filter keepsChunk)) := by
  induction events generalizing w rec with
  | nil => simp [runRecording, delivered, Recorder.pushAll_nil, hr]
  | cons e es ih =>
    have h1 := apply_recorder e w r rec hr
    have h2 := ih (e.apply w) _ h1
    rw [delivered_cons, List.filter_append, ← Recorder.pushAll_pushAll]
    simpa [runRecording] using h2

/-- A successful `startRecording` allocates its recorder at the next free
index, on the granted stream, with an empty array of chunks. -/
theorem startRecording_working_recorder (stream : Nat) (opus : Bool) (w : World) :
    (startRecording (.working stream opus) w).world.recorders[w.recorders.length]? =
      some { stream := stream, mimeType := requestedMimeType opus,
             currentAudioChunks := [] } := by
  simp [startRecording, startRecordingTry, RecordingEnv.working, emit, requestedMimeType]

theorem requestedMimeType_ne_empty (opus : Bool) : requestedMimeType opus ≠ "" := by
  cases opus <;> decide

/-- The recorder of a session, after any sequence of later events. -/
theorem session_recorder (stream : Nat) (opus : Bool) (w : World)
    (events : List RecordingEvent) :
    (runRecording events (startRecording (.working stream opus) w).world).recorders[
        w.recorders.length]? =
      some { stream := stream, mimeType := requestedMimeType opus,
             currentAudioChunks := (delivered w.recorders.length events).filter keepsChunk } := by
  rw [runRecording_recorder events _ _ _ (startRecording_working_recorder stream opus w)]
  simp [Recorder.pushAll]

theorem effectsSince_append (w : World) (after : World) (suffix : List Effect)
    (h : after.log = w.log ++ suffix) : effectsSince w after = suffix := by
  simp [effectsSince, h]

theorem filter_keepsChunk_eq_nil (chunks : List Blob) (h : ∀ b ∈ chunks, b.size = 0) :
    chunks.filter keepsChunk = [] := by
  rw [List.filter_eq_nil_iff]
  intro b hb
  simp [keepsChunk, h b hb]

theorem filter_keepsChunk_pos (chunks : List Blob) :
    ∀ c ∈ chunks.filter keepsChunk, c.size > 0 := by
  intro c hc
  have := (List.mem_filter.1 hc).2
  simpa [keepsChunk] using this

/-- C7: take any dashboard, start a recording on it, and let any sequence of
events follow in which every chunk delivered to the new recorder has size 0
(or in which none is delivered).  Then the finalisation of that recorder,
whatever the transcribe call would answer, stops the tracks, reports
`No audio data captured. Please try recording again.`, adds nothing else to the
log (so no transcribe call), clears `audioChunks`, and throws nothing. -/
theorem recorderOnStop_empty_recording (stream : Nat) (opus : Bool) (w : World)
    (events : List RecordingEvent) (outcome : Outcome SpeechPayload)
    (h : ∀ b ∈ delivered w.recorders.length events, b.size = 0) :
    recorderOnStop w.recorders.length outcome
        (runRecording events (startRecording (.working stream opus) w).world) =
      { world :=
          { runRecording events (startRecording (.working stream opus) w).world with
            audioChunks := []
            log := (runRecording events (startRecording (.working stream opus) w).world).log ++
              [.tracksStop stream,
               .toastError "No audio data captured. Please try recording again."] },
        threw := none } := by
  have hrec := session_recorder stream opus w events
  rw [filter_keepsChunk_eq_nil _ h] at hrec
  exact recorderOnStop_no_chunks _ outcome _ _ hrec rfl

/-- C7 at a recording to which one chunk of size 0 was delivered before the
stop button was pressed. -/
theorem recorderOnStop_empty_recording_witness :
    (∀ b ∈ delivered (World.initial "session-1").recorders.length
        [.dataAvailable 0 emptyChunk, .stop], b.size = 0) ∧
    recorderOnStop (World.initial "session-1").recorders.length
        (.resolved ⟨some ⟨true, "never used"⟩⟩)
        (runRecording [.dataAvailable 0 emptyChunk, .stop]
          (startRecording (.working 7 true) (World.initial "session-1")).world) =
      { world :=
          { runRecording [.dataAvailable 0 emptyChunk, .stop]
              (startRecording (.working 7 true) (World.initial "session-1")).world with
            audioChunks := []
            log := (runRecording [.dataAvailable 0 emptyChunk, .stop]
              (startRecording (.working 7 true) (World.initial "session-1")).world).log ++
              [.tracksStop 7,
               .toastError "No audio data captured. Please try recording again."] },
        threw := none } :=
  ⟨by decide,
   recorderOnStop_empty_recording 7 true (World.initial "session-1")
     [.dataAvailable 0 emptyChunk, .stop] (.resolved ⟨some ⟨true, "never used"⟩⟩)
     (by decide)⟩

/-- C8: take any dashboard (whatever recorders earlier sessions left on it, with
whatever chunks), start a recording on it, and let any sequence of events
follow: starts, stops, and data and stop events of any recorder, those of
earlier sessions and of later ones included.  Then the array of the new
recorder holds exactly the chunks of positive size delivered to that recorder,
in delivery order, and its finalisation issues a transcribe call with a blob
`b` exactly when that list is not empty and `b` is the blob assembled from
that list under the requested mime type. -/
theorem recording_blob_from_own_chunks (stream : Nat) (opus : Bool) (w : World)
    (events : List RecordingEvent) (outcome : Outcome SpeechPayload) :
    (runRecording events (startRecording (.working stream opus) w).world).recorders[
        w.recorders.length]? =
      some { stream := stream, mimeType := requestedMimeType opus,
             currentAudioChunks :=
               (delivered w.recorders.length events).filter keepsChunk } ∧
    ∀ b : Blob,
      Effect.gatewaySpeechToText b ∈
          effectsSince (runRecording events (startRecording (.working stream opus) w).world)
            (recorderOnStop w.recorders.length outcome
              (runRecording events (startRecording (.working stream opus) w).world)).world ↔
        (delivered w.recorders.length events).filter keepsChunk ≠ [] ∧
        b = Blob.ofParts ((delivered w.recorders.length events).filter keepsChunk)
              (requestedMimeType opus) := by
  have hrec := session_recorder stream opus w events
  refine ⟨hrec, ?_⟩
  intro b
  by_cases hne : (delivered w.recorders.length events).filter keepsChunk = []
  · rw [hne] at hrec
    rw [recorderOnStop_no_chunks _ outcome _ _ hrec rfl]
    rw [effectsSince_append _ _ _ rfl]
    simp [hne]
  · obtain ⟨input, report, hrun, hrep⟩ :=
      recorderOnStop_chunks _ outcome _ _ hrec hne (filter_keepsChunk_pos _)
    rw [hrun, effectsSince_append _ _ _ rfl]
    have hm := requestedMimeType_ne_empty opus
    simp only [hm, if_false, List.mem_cons, reduceCtorEq, false_or,
      Effect.gatewaySpeechToText.injEq]
    constructor
    · rintro (h | h)
      · exact ⟨hne, h⟩
      · exact absurd h (hrep b)
    · rintro ⟨-, h⟩
      exact Or.inl h

/-- C9, evaluated where the code departs from it: a recording of one chunk of
three bytes is finalised and the transcribe call answers `success: false`, or
`success: true` with an empty text.  The finalisation stops the tracks, logs the
blob and issues the transcribe call, and then emits no toast of either kind and
leaves the input buffer as it was: the completed recording has no terminal
outcome. -/
theorem recorderOnStop_silent_on_unsuccessful_transcription :
    recorderOnStop 0 (.resolved ⟨some ⟨false, ""⟩⟩) stoppedWorld =
      { world :=
          { stoppedWorld with
            audioChunks := []
            log := stoppedWorld.log ++
              [.tracksStop 7, .consoleLog "Audio blob created:",
               .gatewaySpeechToText (Blob.ofParts [voiceChunk] "audio/webm;codecs=opus")] },
        threw := none } ∧
    recorderOnStop 0 (.resolved ⟨some ⟨true, ""⟩⟩) stoppedWorld =
      { world :=
          { stoppedWorld with
            audioChunks := []
            log := stoppedWorld.log ++
              [.tracksStop 7, .consoleLog "Audio blob created:",
               .gatewaySpeechToText (Blob.ofParts [voiceChunk] "audio/webm;codecs=opus")] },
        threw := none } := by
  constructor <;> decide

/-- C10, as the claim states it, fails: after a recording was stopped, finalised
and transcribed, the recording flag is false, yet a further `stopRecording`
calls `stop` on the recorder again, stops the tracks again and reports
`Recording stopped, processing...`. -/
theorem stopRecording_after_stop_not_noop :
    finishedWorld.isRecording = false ∧
    (stopRecording finishedWorld).world.log =
      finishedWorld.log ++
        [.recorderStop 0, .tracksStop 7, .toastSuccess "Recording stopped, processing..."] ∧
    stopRecording finishedWorld ≠ { world := finishedWorld, threw := none } := by
  refine ⟨?_, ?_, ?_⟩ <;> decide

/-- C10 (amended): `stopRecording` is a no-op whenever no recorder is installed
(`mediaRecorder` is null): it makes no call to the capture device, changes no
state, reports nothing and throws nothing. -/
theorem stopRecording_noop_without_recorder (w : World) (h : w.mediaRecorder = none) :
    stopRecording w = { world := w, threw := none } := by
  simp [stopRecording, h]

/-- C10 (amended) on a freshly mounted dashboard. -/
theorem stopRecording_noop_without_recorder_witness :
    (World.initial "session-1").mediaRecorder = none ∧
    stopRecording (World.initial "session-1") =
      { world := World.initial "session-1", threw := none } :=
  ⟨rfl, stopRecording_noop_without_recorder (World.initial "session-1") rfl⟩

/-! ## Recording: device errors -/

/-- C11, evaluated where the code departs from it: the microphone stream was
granted and then the construction of the recorder, or its start, throws.  The
`catch` block logs the error and reports it; the effects of the whole call are
the microphone request and these two, so the tracks of the granted stream are
not stopped on this exit path. -/
theorem startRecording_error_after_acquisition_keeps_tracks (stream : Nat) (opus : Bool)
    (error : JsError) (startError : Option JsError) (w : World) :
    effectsSince w (startRecording
        { microphone := .granted stream, opusSupported := opus,
          constructorError := some error, startError := startError } w).world =
      [.getUserMedia, .consoleError "Recording error:",
       .toastError ("Failed to start recording: " ++ error.message)] ∧
    effectsSince w (startRecording
        { microphone := .granted stream, opusSupported := opus,
          constructorError := none, startError := some error } w).world =
      [.getUserMedia, .consoleError "Recording error:",
       .toastError ("Failed to start recording: " ++ error.message)] ∧
    Effect.tracksStop stream ∉
      [Effect.getUserMedia, .consoleError "Recording error:",
       .toastError ("Failed to start recording: " ++ error.message)] := by
  refine ⟨?_, ?_, by simp⟩ <;>
    simp [effectsSince, startRecording, startRecordingTry, emit]

/-- C12: when `getUserMedia` rejects (permission denied, no device), whatever the
rest of the environment, `startRecording` throws nothing and leaves every state
cell as it was (recording flag, installed recorder, buffered chunks, allocated
recorders); it only adds to the log the microphone request, the console error
and the report `Failed to start recording: ` followed by the error message. -/
theorem startRecording_denied (error : JsError) (opus : Bool)
    (constructorError startError : Option JsError) (w : World) :
    startRecording
        { microphone := .denied error, opusSupported := opus,
          constructorError := constructorError, startError := startError } w =
      { world :=
          { w with
            log := w.log ++
              [.getUserMedia, .consoleError "Recording error:",
               .toastError ("Failed to start recording: " ++ error.message)] },
        threw := none } := by
  simp [startRecording, startRecordingTry, emit]

/-! ## Text to speech -/

theorem pendingUtterances_append_cancel (log rest : List Effect) :
    pendingUtterances (log ++ .speechCancel :: rest) = pendingUtterances (.speechCancel :: rest) := by
  simp [pendingUtterances, List.foldl_append]

/-- C13: in every state with `isSpeaking` set, on a host with a speech engine,
`handleTextToSpeech` first cancels (`speechSynthesis.cancel()`, with the flag
and the active utterance reset and `Audio stopped` reported) and only then
submits the new utterance; after the call the engine holds the new utterance
and no other, whatever it held before. -/
theorem handleTextToSpeech_while_speaking (text : String) (messageId : Nat) (w : World)
    (h : w.isSpeaking = true) :
    handleTextToSpeech true text messageId w =
      { world :=
          { w with
            isSpeaking := false
            currentUtterance := none
            log := w.log ++
              [.speechCancel, .toastSuccess "Audio stopped",
               .speechSpeak { text := text }, .toastSuccess "Playing audio..."] },
        threw := none } ∧
    pendingUtterances (handleTextToSpeech true text messageId w).world.log =
      [{ text := text }] := by
  have hrun : handleTextToSpeech true text messageId w =
      { world :=
          { w with
            isSpeaking := false
            currentUtterance := none
            log := w.log ++
              [.speechCancel, .toastSuccess "Audio stopped",
               .speechSpeak { text := text }, .toastSuccess "Playing audio..."] },
        threw := none } := by
    simp [handleTextToSpeech, stopTextToSpeech, h, emit]
  refine ⟨hrun, ?_⟩
  rw [hrun]
  simp only
  rw [pendingUtterances_append_cancel]
  simp [pendingUtterances]

/-- C13 on a dashboard that is reading `Hi!` aloud. -/
theorem handleTextToSpeech_while_speaking_witness :
    speakingWorld.isSpeaking = true ∧
    pendingUtterances (handleTextToSpeech true "Welcome" 3 speakingWorld).world.log =
      [{ text := "Welcome" }] :=
  ⟨rfl, (handleTextToSpeech_while_speaking "Welcome" 3 speakingWorld rfl).2⟩

/-- C14: with `isSpeaking` set (on a host with a speech engine, as it must be
for an utterance to be speaking) `stopTextToSpeech` cancels, clears the flag
and the active utterance, and reports `Audio stopped`; with `isSpeaking` clear
it returns the world it was given, on every host: no cancel, no state change,
no report. -/
theorem stopTextToSpeech_speaking_or_idle (speechSynthesis : Bool) (w : World) :
    (w.isSpeaking = true →
      stopTextToSpeech true w =
        { world :=
            { w with
              isSpeaking := false
              currentUtterance := none
              log := w.log ++ [.speechCancel, .toastSuccess "Audio stopped"] },
          threw := none }) ∧
    (w.isSpeaking = false →
      stopTextToSpeech speechSynthesis w = { world := w, threw := none }) := by
  constructor
  · intro h
    simp [stopTextToSpeech, h, emit]
  · intro h
    simp [stopTextToSpeech, h]

/-- C14 on a dashboard that is reading aloud and on a fresh one. -/
theorem stopTextToSpeech_speaking_or_idle_witness :
    stopTextToSpeech true speakingWorld =
      { world :=
          { speakingWorld with
            isSpeaking := false
            currentUtterance := none
            log := speakingWorld.log ++ [.speechCancel, .toastSuccess "Audio stopped"] },
        threw := none } ∧
    stopTextToSpeech true (World.initial "session-1") =
      { world := World.initial "session-1", threw := none } :=
  ⟨(stopTextToSpeech_speaking_or_idle true speakingWorld).1 rfl,
   (stopTextToSpeech_speaking_or_idle true (World.initial "session-1")).2 rfl⟩

/-- C15: `onstart` sets `isSpeaking` and makes its utterance the active one;
`onend` and `onerror` clear `isSpeaking` and the active utterance; `onerror`
reports `Speech playback failed` and `onstart` and `onend` report nothing. -/
theorem utterance_callbacks (utterance : Utterance) (w : World) :
    utteranceOnStart utterance w =
      { w with isSpeaking := true, currentUtterance := some utterance } ∧
    utteranceOnEnd w = { w with isSpeaking := false, currentUtterance := none } ∧
    utteranceOnError w =
      { w with
        isSpeaking := false
        currentUtterance := none
        log := w.log ++ [.toastError "Speech playback failed"] } :=
  ⟨rfl, rfl, rfl⟩

/-- C16: on a host without speech synthesis `handleTextToSpeech` throws
nothing, leaves every state cell as it was, and adds to the log the report
`Text-to-speech not supported in this browser` only: no utterance is submitted
and no cancel is issued. -/
theorem handleTextToSpeech_unsupported (text : String) (messageId : Nat) (w : World) :
    handleTextToSpeech false text messageId w =
      { world :=
          { w with
            log := w.log ++ [.toastError "Text-to-speech not supported in this browser"] },
        threw := none } ∧
    pendingUtterances (handleTextToSpeech false text messageId w).world.log =
      pendingUtterances w.log := by
  constructor
  · simp [handleTextToSpeech, emit]
  · simp [handleTextToSpeech, emit, pendingUtterances, List.foldl_append]

/-! ## One send in flight -/

theorem sendMessageResume_isLoading (outcome : Outcome ChatPayload)
    (statusOutcome : Outcome StatusPayload) (now : String) (w : World) :
    (sendMessageResume outcome statusOutcome now w).world.isLoading = false := rfl

theorem handleSpeechToText_isLoading (b : Blob) (outcome : Outcome SpeechPayload) (w : World) :
    (handleSpeechToText b outcome w).world.isLoading = w.isLoading := by
  obtain ⟨input, report, hrun, -⟩ := handleSpeechToText_shape b outcome w
  rw [hrun]

theorem recorderOnStop_isLoading (r : Nat) (outcome : Outcome SpeechPayload) (w : World) :
    (recorderOnStop r outcome w).world.isLoading = w.isLoading := by
  unfold recorderOnStop
  cases hr : w.recorders[r]? with
  | none => rfl
  | some rec =>
    simp only
    obtain ⟨input, report, hrun, -⟩ := handleSpeechToText_shape
      (Blob.ofParts rec.currentAudioChunks
        (if rec.mimeType = "" then "audio/webm" else rec.mimeType)) outcome
      (emit (.consoleLog "Audio blob created:") (emit (.tracksStop rec.stream) w))
    rw [hrun]
    split_ifs <;> rfl

theorem startRecording_isLoading (env : RecordingEnv) (w : World) :
    (startRecording env w).world.isLoading = w.isLoading := by
  unfold startRecording startRecordingTry
  rcases env with ⟨mic, opus, ce, se⟩
  cases mic <;> cases ce <;> cases se <;> simp [emit]

theorem stopRecording_isLoading (w : World) :
    (stopRecording w).world.isLoading = w.isLoading := by
  unfold stopRecording
  cases hm : w.mediaRecorder with
  | none => rfl
  | some r =>
    simp only [emit]
    cases w.recorders[r]? <;> rfl

/-- No recording event touches the loading flag. -/
theorem RecordingEvent.apply_isLoading (e : RecordingEvent) (w : World) :
    (e.apply w).isLoading = w.isLoading := by
  cases e with
  | start env => exact startRecording_isLoading env w
  | stop => exact stopRecording_isLoading w
  | dataAvailable r data =>
    simp only [RecordingEvent.apply, recorderOnDataAvailable]
    split_ifs <;> rfl
  | stopped r outcome => exact recorderOnStop_isLoading r outcome w

theorem Session.callSendMessage_consistent (now : String) (s : Session)
    (h : s.outstanding = 0 ∧ s.world.isLoading = false) :
    (s.callSendMessage now).Consistent := by
  unfold Session.callSendMessage
  cases hb : isBlank ((none : Option String).getD s.world.inputMessage)
  · rw [sendMessageBegin_issue none now s.world hb]
    exact Or.inr ⟨by simp [h.1], rfl⟩
  · rw [sendMessageBegin_blank none now s.world hb]
    exact Or.inl h

/-- Every session event keeps the send part of the dashboard consistent. -/
theorem SessionEvent.apply_consistent (e : SessionEvent) (s : Session)
    (h : s.Consistent) : (e.apply s).Consistent := by
  cases e with
  | clickSend now =>
    simp only [SessionEvent.apply]
    split_ifs with hd
    · exact h
    · rcases h with h | h
      · exact Session.callSendMessage_consistent now s h
      · simp [sendButtonDisabled, h.2] at hd
  | keyPress key shiftKey now =>
    simp only [SessionEvent.apply, handleKeyPress]
    split_ifs with hd hk
    · exact h
    · rcases h with h | h
      · exact Session.callSendMessage_consistent now s h
      · simp [messageInputDisabled, h.2] at hd
    · exact h
  | change value =>
    simp only [SessionEvent.apply]
    split_ifs with hd
    · exact h
    · exact h
  | settle outcome statusOutcome now =>
    simp only [SessionEvent.apply]
    split_ifs with h0
    · exact h
    · rcases h with h | h
      · exact absurd h.1 h0
      · exact Or.inl ⟨by simp [h.1], sendMessageResume_isLoading _ _ _ _⟩
  | recording e =>
    simp only [SessionEvent.apply]
    rcases h with h | h
    · exact Or.inl ⟨h.1, by simp [RecordingEvent.apply_isLoading, h.2]⟩
    · exact Or.inr ⟨h.1, by simp [RecordingEvent.apply_isLoading, h.2]⟩

theorem runSession_consistent (events : List SessionEvent) (s : Session)
    (h : s.Consistent) : (runSession events s).Consistent := by
  induction events generalizing s with
  | nil => exact h
  | cons e es ih => exact ih (e.apply s) (SessionEvent.apply_consistent e s h)

/-- C17: on a dashboard driven from its mount by any sequence of clicks on the
send button, key presses and edits in the message input, settlements of the
outstanding send, and recording events, at most one send-message gateway call
is outstanding, and while one is outstanding the loading flag is set.  While
the flag is set, a click on the send button and a key press in the message input
reach no handler (both controls are disabled), so nothing changes and no
second gateway call is issued. -/
theorem one_send_outstanding (sessionId : String) (events : List SessionEvent) :
    (runSession events (Session.initial sessionId)).outstanding ≤ 1 ∧
    ((runSession events (Session.initial sessionId)).outstanding = 1 →
      (runSession events (Session.initial sessionId)).world.isLoading = true) ∧
    ((runSession events (Session.initial sessionId)).world.isLoading = true →
      ∀ (now key : String) (shiftKey : Bool),
        (SessionEvent.clickSend now).apply (runSession events (Session.initial sessionId)) =
          runSession events (Session.initial sessionId) ∧
        (SessionEvent.keyPress key shiftKey now).apply
            (runSession events (Session.initial sessionId)) =
          runSession events (Session.initial sessionId)) := by
  have h := runSession_consistent events (Session.initial sessionId) (Or.inl ⟨rfl, rfl⟩)
  refine ⟨?_, ?_, ?_⟩
  · rcases h with h | h <;> omega
  · intro h1
    rcases h with h | h
    · omega
    · exact h.2
  · intro hl now key shiftKey
    constructor
    · simp [SessionEvent.apply, sendButtonDisabled, hl]
    · simp [SessionEvent.apply, messageInputDisabled, hl]

/-- C17 on a dashboard where `Hello` was typed and the send button clicked. -/
theorem one_send_outstanding_witness :
    (runSession [.change "Hello", .clickSend "T0"]
      (Session.initial "session-1")).world.isLoading = true ∧
    ∀ (now key : String) (shiftKey : Bool),
      (SessionEvent.clickSend now).apply
          (runSession [.change "Hello", .clickSend "T0"] (Session.initial "session-1")) =
        runSession [.change "Hello", .clickSend "T0"] (Session.initial "session-1") ∧
      (SessionEvent.keyPress key shiftKey now).apply
          (runSession [.change "Hello", .clickSend "T0"] (Session.initial "session-1")) =
        runSession [.change "Hello", .clickSend "T0"] (Session.initial "session-1") :=
  ⟨by decide,
   (one_send_outstanding "session-1" [.change "Hello", .clickSend "T0"]).2.2 (by decide)⟩

/-! ## The transcript is append-only -/

theorem sendMessageResume_messages (outcome : Outcome ChatPayload)
    (statusOutcome : Outcome StatusPayload) (now : String) (w : World) :
    ∃ added : List ChatMessage, added.length ≤ 1 ∧
      (sendMessageResume outcome statusOutcome now w).world.messages = w.messages ++ added := by
  rcases outcome with ⟨_ | ⟨ok, r, T, s⟩⟩ | error
  · exact ⟨[_], by simp, by
      simp [sendMessageResume, sendMessageTry, sendMessageCatch, emit]; rfl⟩
  · cases ok
    · exact ⟨[], by simp, by simp [sendMessageResume, sendMessageTry, emit]⟩
    · exact ⟨[_], by simp, by
        simp [sendMessageResume, sendMessageTry, loadStatus_threw, loadStatus_messages]; rfl⟩
  · exact ⟨[_], by simp, by simp [sendMessageResume, sendMessageCatch, emit]; rfl⟩

theorem handleFileUpload_success_messages (file filename : String) (wordCount : Nat)
    (statusOutcome : Outcome StatusPayload) (now : String) (w : World) :
    (handleFileUpload (some file) (.resolved ⟨some ⟨true, filename, wordCount⟩⟩) statusOutcome
      now w).world.messages =
      w.messages ++
        [{ role := .system,
           content := "📄 PDF uploaded: " ++ filename ++ " (" ++ toString wordCount ++ " words)",
           timestamp := now, sources := none, isError := false }] := by
  simp [handleFileUpload, handleFileUploadTry, loadStatus_threw, loadStatus_messages, emit]

theorem handleFileUpload_messages (file : Option String) (outcome : Outcome UploadPayload)
    (statusOutcome : Outcome StatusPayload) (now : String) (w : World) :
    ∃ added : List ChatMessage, added.length ≤ 1 ∧
      (handleFileUpload file outcome statusOutcome now w).world.messages
        = w.messages ++ added := by
  cases file with
  | none => exact ⟨[], by simp, by simp [handleFileUpload]⟩
  | some file =>
    rcases outcome with ⟨_ | ⟨ok, filename, wordCount⟩⟩ | error
    · exact ⟨[], by simp, by simp [handleFileUpload, handleFileUploadTry, emit]⟩
    · cases ok
      · exact ⟨[], by simp, by simp [handleFileUpload, handleFileUploadTry, emit]⟩
      · exact ⟨[_], by simp, handleFileUpload_success_messages _ _ _ _ _ _⟩
    · exact ⟨[], by simp, by simp [handleFileUpload, emit]⟩

theorem handleWebsiteLoad_success_messages (url loaded : String) (wordCount : Nat)
    (statusOutcome : Outcome StatusPayload) (now : String) (w : World)
    (h : isBlank url = false) :
    (handleWebsiteLoad url (.resolved ⟨some ⟨true, loaded, wordCount⟩⟩) statusOutcome
      now w).world.messages =
      w.messages ++
        [{ role := .system,
           content := "🌐 Website loaded: " ++ loaded ++ " (" ++ toString wordCount ++ " words)",
           timestamp := now, sources := none, isError := false }] := by
  simp [handleWebsiteLoad, handleWebsiteLoadTry, loadStatus_threw, loadStatus_messages, emit, h]

theorem handleWebsiteLoad_messages (url : String) (outcome : Outcome WebsitePayload)
    (statusOutcome : Outcome StatusPayload) (now : String) (w : World) :
    ∃ added : List ChatMessage, added.length ≤ 1 ∧
      (handleWebsiteLoad url outcome statusOutcome now w).world.messages
        = w.messages ++ added := by
  cases hb : isBlank url
  · rcases outcome with ⟨_ | ⟨ok, loaded, wordCount⟩⟩ | error
    · exact ⟨[], by simp, by simp [handleWebsiteLoad, handleWebsiteLoadTry, emit, hb]⟩
    · cases ok
      · exact ⟨[], by simp, by simp [handleWebsiteLoad, handleWebsiteLoadTry, emit, hb]⟩
      · exact ⟨[_], by simp, handleWebsiteLoad_success_messages _ _ _ _ _ _ hb⟩
    · exact ⟨[], by simp, by simp [handleWebsiteLoad, emit, hb]⟩
  · exact ⟨[], by simp, by simp [handleWebsiteLoad, hb]⟩

/-- One transcript step keeps the transcript and adds at most one message at its end. -/
theorem TranscriptStep.apply_messages (step : TranscriptStep) (w : World) :
    ∃ added : List ChatMessage, added.length ≤ 1 ∧
      (step.apply w).messages = w.messages ++ added := by
  cases step with
  | sendBegin messageText now =>
    cases hb : isBlank (messageText.getD w.inputMessage)
    · exact ⟨[userMessage (messageText.getD w.inputMessage) now], by simp, by
        simp only [TranscriptStep.apply, sendMessageBegin_issue _ _ _ hb, Suspended.world]⟩
    · exact ⟨[], by simp, by
        simp [TranscriptStep.apply, sendMessageBegin_blank _ _ _ hb, Suspended.world]⟩
  | sendSettle outcome statusOutcome now => exact sendMessageResume_messages _ _ _ _
  | fileUpload file outcome statusOutcome now => exact handleFileUpload_messages _ _ _ _ _
  | websiteLoad url outcome statusOutcome now => exact handleWebsiteLoad_messages _ _ _ _ _

theorem runTranscript_append (steps₁ steps₂ : List TranscriptStep) (w : World) :
    runTranscript (steps₁ ++ steps₂) w = runTranscript steps₂ (runTranscript steps₁ w) := by
  simp [runTranscript, List.foldl_append]

/-- Transcript steps keep the transcript they start from and add at most one
message each, at its end. -/
theorem runTranscript_messages (steps : List TranscriptStep) (w : World) :
    ∃ added : List ChatMessage, added.length ≤ steps.length ∧
      (runTranscript steps w).messages = w.messages ++ added := by
  induction steps generalizing w with
  | nil => exact ⟨[], by simp, by simp [runTranscript]⟩
  | cons step rest ih =>
    obtain ⟨a, ha, hstep⟩ := TranscriptStep.apply_messages step w
    obtain ⟨b, hb, hrest⟩ := ih (step.apply w)
    refine ⟨a ++ b, by simp only [List.length_append, List.length_cons]; omega, ?_⟩
    have : runTranscript (step :: rest) w = runTranscript rest (step.apply w) := rfl
    rw [this, hrest, hstep, List.append_assoc]

/-- C18: from every dashboard state, each transcript-changing step other than a
clear leaves the previous transcript in place and adds exactly one message at
its end: the user message of a send with a non-blank text, the assistant
message of a successful send, the error message of a rejected send, the system
message of a successful PDF upload, and that of a successful load of a
non-blank URL.  Hence, for steps run in the order in which they complete, the
transcript after the earlier steps is an initial segment of the transcript
after the later ones, and a run of steps adds at most one message per step,
after the messages it started from. -/
theorem transcript_append_only (w : World) :
    (∀ (messageText : Option String) (now : String),
      isBlank (messageText.getD w.inputMessage) = false →
      ((TranscriptStep.sendBegin messageText now).apply w).messages =
        w.messages ++
          [{ role := .user, content := messageText.getD w.inputMessage, timestamp := now,
             sources := none, isError := false }]) ∧
    (∀ (r T : String) (s : List String) (statusOutcome : Outcome StatusPayload)
        (now : String),
      ((TranscriptStep.sendSettle (.resolved ⟨some ⟨true, r, T, s⟩⟩) statusOutcome now).apply
        w).messages =
        w.messages ++
          [{ role := .assistant, content := r, timestamp := T, sources := some s,
             isError := false }]) ∧
    (∀ (error : JsError) (statusOutcome : Outcome StatusPayload) (now : String),
      ((TranscriptStep.sendSettle (.rejected error) statusOutcome now).apply w).messages =
        w.messages ++
          [{ role := .assistant,
             content := "Sorry, I encountered an error: " ++
               orDefault (errorDetail error) "Failed to send message",
             timestamp := now, sources := none, isError := true }]) ∧
    (∀ (file filename : String) (wordCount : Nat) (statusOutcome : Outcome StatusPayload)
        (now : String),
      ((TranscriptStep.fileUpload (some file) (.resolved ⟨some ⟨true, filename, wordCount⟩⟩)
        statusOutcome now).apply w).messages =
        w.messages ++
          [{ role := .system,
             content := "📄 PDF uploaded: " ++ filename ++ " (" ++ toString wordCount ++
               " words)",
             timestamp := now, sources := none, isError := false }]) ∧
    (∀ (url loaded : String) (wordCount : Nat) (statusOutcome : Outcome StatusPayload)
        (now : String),
      isBlank url = false →
      ((TranscriptStep.websiteLoad url (.resolved ⟨some ⟨true, loaded, wordCount⟩⟩)
        statusOutcome now).apply w).messages =
        w.messages ++
          [{ role := .system,
             content := "🌐 Website loaded: " ++ loaded ++ " (" ++ toString wordCount ++
               " words)",
             timestamp := now, sources := none, isError := false }]) ∧
    (∀ steps₁ steps₂ : List TranscriptStep,
      (runTranscript steps₁ w).messages <+: (runTranscript (steps₁ ++ steps₂) w).messages) ∧
    (∀ steps : List TranscriptStep,
      ∃ added : List ChatMessage, added.length ≤ steps.length ∧
        (runTranscript steps w).messages = w.messages ++ added) := by
  refine ⟨?_, ?_, ?_, ?_, ?_, ?_, ?_⟩
  · intro messageText now hb
    simp only [TranscriptStep.apply, sendMessageBegin_issue _ _ _ hb, Suspended.world,
      userMessage]
  · intro r T s statusOutcome now
    simp [TranscriptStep.apply, sendMessageResume, sendMessageTry, loadStatus_threw,
      loadStatus_messages]
  · intro error statusOutcome now
    simp [TranscriptStep.apply, sendMessageResume, sendMessageCatch, emit]
  · intro file filename wordCount statusOutcome now
    exact handleFileUpload_success_messages _ _ _ _ _ _
  · intro url loaded wordCount statusOutcome now hb
    exact handleWebsiteLoad_success_messages _ _ _ _ _ _ hb
  · intro steps₁ steps₂
    rw [runTranscript_append]
    obtain ⟨added, -, h⟩ := runTranscript_messages steps₂ (runTranscript steps₁ w)
    exact ⟨added, h.symm⟩
  · intro steps
    exact runTranscript_messages steps w

/-- C18 on a dashboard whose transcript holds one message: sending `Again`, and
loading the website `https://example.com`. -/
theorem transcript_append_only_witness :
    ((TranscriptStep.sendBegin (some "Again") "T2").apply worldWithHello).messages =
      worldWithHello.messages ++
        [{ role := .user, content := (some "Again").getD worldWithHello.inputMessage,
           timestamp := "T2", sources := none, isError := false }] ∧
    ((TranscriptStep.websiteLoad "https://example.com"
      (.resolved ⟨some ⟨true, "https://example.com", 120⟩⟩) (.resolved ⟨none⟩) "T3").apply
        worldWithHello).messages =
      worldWithHello.messages ++
        [{ role := .system,
           content := "🌐 Website loaded: " ++ "https://example.com" ++ " (" ++ toString 120 ++
             " words)",
           timestamp := "T3", sources := none, isError := false }] :=
  ⟨(transcript_append_only worldWithHello).1 (some "Again") "T2" (by decide),
   (transcript_append_only worldWithHello).2.2.2.2.1 "https://example.com"
     "https://example.com" 120 (.resolved ⟨none⟩) "T3" (by decide)⟩

/-! ## Session invalidation on 401 -/

theorem find?_filter_of_imp {α : Type} (p q : α → Bool) (l : List α)
    (h : ∀ a, p a = true → q a = true) : (l.filter q).find? p = l.find? p := by
  induction l with
  | nil => rfl
  | cons a t ih =>
    cases hq : q a
    · have hp : p a = false := by
        cases hp : p a
        · rfl
        · rw [h a hp] at hq
          exact absurd hq (by simp)
      simp [List.filter_cons, List.find?_cons, hq, hp, ih]
    · cases hp : p a
      · simp [List.filter_cons, List.find?_cons, hq, hp, ih]
      · simp [List.filter_cons, List.find?_cons, hq, hp]

theorem Storage.getItem_removeItem_self (s : Storage) (key : String) :
    Storage.getItem (Storage.removeItem s key) key = none := by
  unfold Storage.getItem Storage.removeItem
  rw [Option.map_eq_none', List.find?_eq_none]
  intro kv hkv
  have := (List.mem_filter.1 hkv).2
  simpa using this

theorem Storage.getItem_removeItem_other (s : Storage) (key other : String)
    (hne : key ≠ other) :
    Storage.getItem (Storage.removeItem s other) key = Storage.getItem s key := by
  unfold Storage.getItem Storage.removeItem
  rw [find?_filter_of_imp]
  intro kv hkv
  have hk : kv.1 = key := by simpa using hkv
  simp [hk, hne]

/-- The browser after the response interceptor saw an error with status 401. -/
theorem responseInterceptor_unauthorized {α : Type} (message : String)
    (data : Option ErrorBody) (b : Browser) :
    responseInterceptor
        (.rejected { message := message, response := some { status := 401, data := data } } :
          Outcome α) b =
      ({ b with
         localStorage := Storage.removeItem (Storage.removeItem b.localStorage "token") "user"
         location := "/login" },
       .rejected { message := message, response := some { status := 401, data := data } }) := by
  simp [responseInterceptor]

/-- C19: for the response of any operation (any payload type), an error with
status 401 makes the response interceptor remove the stored token and the
stored user, and an error with any other status, or without a response, leaves
the browser state as it was; in both cases the same error is passed on as a
rejection. -/
theorem responseInterceptor_clears_credentials_on_401 {α : Type} (message : String)
    (data : Option ErrorBody) (error : JsError) (b : Browser) :
    (Storage.getItem (responseInterceptor
        (.rejected { message := message, response := some { status := 401, data := data } } :
          Outcome α) b).1.localStorage "token" = none ∧
     Storage.getItem (responseInterceptor
        (.rejected { message := message, response := some { status := 401, data := data } } :
          Outcome α) b).1.localStorage "user" = none ∧
     (responseInterceptor
        (.rejected { message := message, response := some { status := 401, data := data } } :
          Outcome α) b).2 =
       .rejected { message := message, response := some { status := 401, data := data } }) ∧
    (error.response.map ErrorResponse.status ≠ some 401 →
      responseInterceptor (.rejected error : Outcome α) b = (b, .rejected error)) := by
  refine ⟨⟨?_, ?_, ?_⟩, ?_⟩
  · rw [responseInterceptor_unauthorized]
    simp only
    rw [Storage.getItem_removeItem_other _ _ _ (by decide), Storage.getItem_removeItem_self]
  · rw [responseInterceptor_unauthorized]
    simp only
    rw [Storage.getItem_removeItem_self]
  · rw [responseInterceptor_unauthorized]
  · intro h
    simp [responseInterceptor, h]

/-- C19 for a status 500 error of a chat request, in a browser holding a session. -/
theorem responseInterceptor_clears_credentials_on_401_witness :
    serverError.response.map ErrorResponse.status ≠ some 401 ∧
    responseInterceptor (.rejected serverError : Outcome ChatPayload) signedInBrowser =
      (signedInBrowser, .rejected serverError) :=
  ⟨by decide,
   (@responseInterceptor_clears_credentials_on_401 ChatPayload "" none serverError
     signedInBrowser).2 (by decide)⟩

/-- C20: after the response interceptor saw status 401 on any request, the
window is sent to `/login`, and the application starting on that page from the
storage the interceptor left has no authenticated user and is not loading,
whatever the stored data parsed to before; on that state `ProtectedRoute`
renders the redirect to `/login` instead of its children. -/
theorem unauthorized_forces_login {α : Type} (parse : String → Option (Option UserProfile))
    (message : String) (data : Option ErrorBody) (b : Browser) :
    (responseInterceptor
        (.rejected { message := message, response := some { status := 401, data := data } } :
          Outcome α) b).1.location = "/login" ∧
    (appStart parse (responseInterceptor
        (.rejected { message := message, response := some { status := 401, data := data } } :
          Outcome α) b).1).2 = { user := none, loading := false } ∧
    protectedRoute (appStart parse (responseInterceptor
        (.rejected { message := message, response := some { status := 401, data := data } } :
          Outcome α) b).1).2 = .navigate "/login" := by
  have htoken : Storage.getItem
      (Storage.removeItem (Storage.removeItem b.localStorage "token") "user") "token" = none := by
    rw [Storage.getItem_removeItem_other _ _ _ (by decide), Storage.getItem_removeItem_self]
  have hstart : (appStart parse (responseInterceptor
        (.rejected { message := message, response := some { status := 401, data := data } } :
          Outcome α) b).1).2 = { user := none, loading := false } := by
    rw [responseInterceptor_unauthorized]
    simp [appStart, authProviderInit, htoken, AuthState.initial]
  refine ⟨?_, hstart, ?_⟩
  · rw [responseInterceptor_unauthorized]
  · rw [hstart]
    rfl

/-! ## Device and playback handlers and the transcript -/

theorem startRecording_messages (env : RecordingEnv) (w : World) :
    (startRecording env w).world.messages = w.messages := by
  unfold startRecording startRecordingTry
  rcases env with ⟨mic, opus, ce, se⟩
  cases mic <;> cases ce <;> cases se <;> simp [emit]

theorem stopRecording_messages (w : World) :
    (stopRecording w).world.messages = w.messages := by
  unfold stopRecording
  cases hm : w.mediaRecorder with
  | none => rfl
  | some r =>
    simp only [emit]
    cases w.recorders[r]? <;> rfl

theorem handleSpeechToText_messages (b : Blob) (outcome : Outcome SpeechPayload) (w : World) :
    (handleSpeechToText b outcome w).world.messages = w.messages := by
  obtain ⟨input, report, hrun, -⟩ := handleSpeechToText_shape b outcome w
  rw [hrun]

theorem recorderOnStop_messages (r : Nat) (outcome : Outcome SpeechPayload) (w : World) :
    (recorderOnStop r outcome w).world.messages = w.messages := by
  unfold recorderOnStop
  cases hr : w.recorders[r]? with
  | none => rfl
  | some rec =>
    simp only
    obtain ⟨input, report, hrun, -⟩ := handleSpeechToText_shape
      (Blob.ofParts rec.currentAudioChunks
        (if rec.mimeType = "" then "audio/webm" else rec.mimeType)) outcome
      (emit (.consoleLog "Audio blob created:") (emit (.tracksStop rec.stream) w))
    rw [hrun]
    split_ifs <;> rfl

theorem recorderOnDataAvailable_messages (r : Nat) (data : Blob) (w : World) :
    (recorderOnDataAvailable r data w).messages = w.messages := by
  unfold recorderOnDataAvailable
  split_ifs <;> rfl

theorem stopTextToSpeech_messages (speechSynthesis : Bool) (w : World) :
    (stopTextToSpeech speechSynthesis w).world.messages = w.messages := by
  unfold stopTextToSpeech
  split_ifs <;> rfl

theorem handleTextToSpeech_messages (speechSynthesis : Bool) (text : String)
    (messageId : Nat) (w : World) :
    (handleTextToSpeech speechSynthesis text messageId w).world.messages = w.messages := by
  unfold handleTextToSpeech
  cases speechSynthesis
  · rfl
  · cases hs : w.isSpeaking
    · simp [hs, emit]
    · simp [hs, emit, stopTextToSpeech_messages]

/-- C25: the transcript after each device or playback handler is the transcript
before it, for every state and on every path (every answer of the browser to
the device calls, every outcome of the transcribe call, hosts with and without
speech synthesis): `startRecording`, `stopRecording`, the two recorder
callbacks (finalisation among them), `handleSpeechToText`,
`handleTextToSpeech`, `stopTextToSpeech`, and the three utterance callbacks. -/
theorem device_and_playback_keep_transcript (w : World) :
    (∀ env : RecordingEnv, (startRecording env w).world.messages = w.messages) ∧
    (stopRecording w).world.messages = w.messages ∧
    (∀ (r : Nat) (data : Blob), (recorderOnDataAvailable r data w).messages = w.messages) ∧
    (∀ (r : Nat) (outcome : Outcome SpeechPayload),
      (recorderOnStop r outcome w).world.messages = w.messages) ∧
    (∀ (b : Blob) (outcome : Outcome SpeechPayload),
      (handleSpeechToText b outcome w).world.messages = w.messages) ∧
    (∀ (speechSynthesis : Bool) (text : String) (messageId : Nat),
      (handleTextToSpeech speechSynthesis text messageId w).world.messages = w.messages) ∧
    (∀ speechSynthesis : Bool,
      (stopTextToSpeech speechSynthesis w).world.messages = w.messages) ∧
    (∀ utterance : Utterance, (utteranceOnStart utterance w).messages = w.messages) ∧
    (utteranceOnEnd w).messages = w.messages ∧
    (utteranceOnError w).messages = w.messages :=
  ⟨fun env => startRecording_messages env w, stopRecording_messages w,
   fun r data => recorderOnDataAvailable_messages r data w,
   fun r outcome => recorderOnStop_messages r outcome w,
   fun b outcome => handleSpeechToText_messages b outcome w,
   fun s text messageId => handleTextToSpeech_messages s text messageId w,
   fun s => stopTextToSpeech_messages s w,
   fun _ => rfl, rfl, rfl⟩

/-! ## Sending: the unsuccessful response and the loading flag -/

/-- C26: for every non-blank text, a gateway response whose `success` is false
leaves the transcript equal to the prior one followed by the user message and
nothing else; the failure shows only as the toast
`Failed to get response from assistant`, the one effect after the gateway call. -/
theorem sendMessage_unsuccessful_response (messageText : Option String)
    (sentAt failedAt r T : String) (s : List String) (statusOutcome : Outcome StatusPayload)
    (w : World) (h : isBlank (messageText.getD w.inputMessage) = false) :
    sendMessage messageText sentAt (.resolved ⟨some ⟨false, r, T, s⟩⟩) statusOutcome failedAt
        w =
      { world :=
          { w with
            messages := w.messages ++
              [{ role := .user, content := messageText.getD w.inputMessage,
                 timestamp := sentAt, sources := none, isError := false }]
            inputMessage := ""
            isLoading := false
            log := w.log ++
              [.gatewaySendMessage (messageText.getD w.inputMessage) w.sessionId,
               .toastError "Failed to get response from assistant"] },
        threw := none } := by
  simp [sendMessage, sendMessageBegin_issue _ _ _ h, sendMessageResume, sendMessageTry, emit,
    userMessage]

/-- C26 at the text `Hello` on a fresh dashboard. -/
theorem sendMessage_unsuccessful_response_witness :
    (sendMessage (some "Hello") "T0" (.resolved ⟨some ⟨false, "", "T", []⟩⟩) (.resolved ⟨none⟩)
      "T1" (World.initial "session-1")).world.messages = [helloMessage] :=
  (congrArg (fun r : Run => r.world.messages)
    (sendMessage_unsuccessful_response (some "Hello") "T0" "T1" "" "T" [] (.resolved ⟨none⟩)
      (World.initial "session-1") (by decide))).trans (by decide)

/-- C27: for every non-blank text, the world in which `sendMessage` is suspended
at its gateway call has the loading flag set, and for every gateway outcome
(payload with `success` true or false, payload without `data`, rejection) the
world `sendMessage` leaves on completion has the flag clear, so the message
input is enabled again; the same holds when the completion runs on any other
world, whatever happened while the call was outstanding. -/
theorem sendMessage_loading_flag (messageText : Option String) (sentAt : String) (w : World)
    (h : isBlank (messageText.getD w.inputMessage) = false) :
    (∃ suspended : World,
      sendMessageBegin messageText sentAt w =
        .awaiting suspended (messageText.getD w.inputMessage) ∧
      suspended.isLoading = true ∧ messageInputDisabled suspended = true) ∧
    (∀ (outcome : Outcome ChatPayload) (statusOutcome : Outcome StatusPayload)
        (failedAt : String),
      (sendMessage messageText sentAt outcome statusOutcome failedAt w).world.isLoading
        = false ∧
      messageInputDisabled
        (sendMessage messageText sentAt outcome statusOutcome failedAt w).world = false) ∧
    (∀ (outcome : Outcome ChatPayload) (statusOutcome : Outcome StatusPayload)
        (failedAt : String) (later : World),
      (sendMessageResume outcome statusOutcome failedAt later).world.isLoading = false) := by
  refine ⟨⟨_, sendMessageBegin_issue _ _ _ h, rfl, rfl⟩, ?_, ?_⟩
  · intro outcome statusOutcome failedAt
    have hl : (sendMessage messageText sentAt outcome statusOutcome failedAt w).world.isLoading
        = false := by
      rw [sendMessage, sendMessageBegin_issue _ _ _ h]
      rfl
    exact ⟨hl, by simp [messageInputDisabled, hl]⟩
  · intro outcome statusOutcome failedAt later
    rfl

/-- C27 at the text `Hello`: a rejected send ends with the input enabled. -/
theorem sendMessage_loading_flag_witness :
    (sendMessage (some "Hello") "T0" (.rejected timeoutError) (.resolved ⟨none⟩) "T1"
      (World.initial "session-1")).world.isLoading = false ∧
    messageInputDisabled
      (sendMessage (some "Hello") "T0" (.rejected timeoutError) (.resolved ⟨none⟩) "T1"
        (World.initial "session-1")).world = false :=
  (sendMessage_loading_flag (some "Hello") "T0" (World.initial "session-1") (by decide)).2.1
    (.rejected timeoutError) (.resolved ⟨none⟩) "T1"

/-! ## Speech to text and the input buffer -/

/-- C29: a transcription that succeeds with a non-empty text makes
`handleSpeechToText` set the input buffer to that text and report
`Speech converted to text!`; its only gateway call is the transcribe call, so
no send-message call is issued, and the transcript is as before.  A rejected
call, a response without `data`, a response with `success` false and a
response with an empty text leave the input buffer as it was. -/
theorem handleSpeechToText_fills_input_only (b : Blob) (text : String) (error : JsError)
    (w : World) :
    (text ≠ "" →
      handleSpeechToText b (.resolved ⟨some ⟨true, text⟩⟩) w =
        { world :=
            { w with
              inputMessage := text
              log := w.log ++
                [.gatewaySpeechToText b, .toastSuccess "Speech converted to text!"] },
          threw := none } ∧
      ∀ message sessionId : String,
        Effect.gatewaySendMessage message sessionId ∉
          effectsSince w (handleSpeechToText b (.resolved ⟨some ⟨true, text⟩⟩) w).world) ∧
    (handleSpeechToText b (.rejected error) w).world.inputMessage = w.inputMessage ∧
    (handleSpeechToText b (.resolved ⟨none⟩) w).world.inputMessage = w.inputMessage ∧
    (handleSpeechToText b (.resolved ⟨some ⟨false, text⟩⟩) w).world.inputMessage
      = w.inputMessage ∧
    (handleSpeechToText b (.resolved ⟨some ⟨true, ""⟩⟩) w).world.inputMessage
      = w.inputMessage := by
  refine ⟨?_, ?_, ?_, ?_, ?_⟩
  · intro ht
    have hrun : handleSpeechToText b (.resolved ⟨some ⟨true, text⟩⟩) w =
        { world :=
            { w with
              inputMessage := text
              log := w.log ++
                [.gatewaySpeechToText b, .toastSuccess "Speech converted to text!"] },
          threw := none } := by
      simp [handleSpeechToText, handleSpeechToTextTry, ht, emit]
    refine ⟨hrun, ?_⟩
    intro message sessionId
    rw [hrun, effectsSince_append _ _ _ rfl]
    simp
  · simp [handleSpeechToText, emit]
  · simp [handleSpeechToText, handleSpeechToTextTry, emit]
  · simp [handleSpeechToText, handleSpeechToTextTry, emit]
  · simp [handleSpeechToText, handleSpeechToTextTry, emit]

/-- C29 at the transcription `hello there` of a three-byte recording. -/
theorem handleSpeechToText_fills_input_only_witness :
    handleSpeechToText voiceChunk (.resolved ⟨some ⟨true, "hello there"⟩⟩) worldWithHello =
      { world :=
          { worldWithHello with
            inputMessage := "hello there"
            log := worldWithHello.log ++
              [.gatewaySpeechToText voiceChunk, .toastSuccess "Speech converted to text!"] },
        threw := none } :=
  ((handleSpeechToText_fills_input_only voiceChunk "hello there" timeoutError
    worldWithHello).1 (by decide)).1

/-! ## Text to speech: when the cancel is issued -/

theorem pendingUtterances_append_speak (log : List Effect) (u : Utterance) (msg : String) :
    pendingUtterances (log ++ [.speechSpeak u, .toastSuccess msg]) =
      pendingUtterances log ++ [u] := by
  simp [pendingUtterances, List.foldl_append]

theorem handleTextToSpeech_idle (text : String) (messageId : Nat) (w : World)
    (h : w.isSpeaking = false) :
    handleTextToSpeech true text messageId w =
      { world :=
          { w with
            log := w.log ++ [.speechSpeak { text := text }, .toastSuccess "Playing audio..."] },
        threw := none } := by
  simp [handleTextToSpeech, h, emit]

theorem handleTextToSpeech_speaking (text : String) (messageId : Nat) (w : World)
    (h : w.isSpeaking = true) :
    handleTextToSpeech true text messageId w =
      { world :=
          { w with
            isSpeaking := false
            currentUtterance := none
            log := w.log ++
              [.speechCancel, .toastSuccess "Audio stopped",
               .speechSpeak { text := text }, .toastSuccess "Playing audio..."] },
        threw := none } := by
  simp [handleTextToSpeech, stopTextToSpeech, h, emit]

/-- C30: `handleTextToSpeech` issues `speechSynthesis.cancel()` exactly when the
host has a speech engine and `isSpeaking` is set at the call.  The handler never
sets the flag itself: called with the flag clear it leaves it clear.  Hence two
calls in a row from a state with the flag clear, with no `onstart` in between,
issue no cancel: their effects are the two submissions with their reports, and
the engine then holds both utterances, the first before the second, after any
it held before. -/
theorem handleTextToSpeech_cancels_iff_speaking (w : World) :
    (∀ (speechSynthesis : Bool) (text : String) (messageId : Nat),
      Effect.speechCancel ∈
          effectsSince w (handleTextToSpeech speechSynthesis text messageId w).world ↔
        speechSynthesis = true ∧ w.isSpeaking = true) ∧
    (w.isSpeaking = false →
      ∀ (first second : String) (firstId secondId : Nat),
        (handleTextToSpeech true first firstId w).world.isSpeaking = false ∧
        effectsSince w
            (handleTextToSpeech true second secondId
              (handleTextToSpeech true first firstId w).world).world =
          [.speechSpeak { text := first }, .toastSuccess "Playing audio...",
           .speechSpeak { text := second }, .toastSuccess "Playing audio..."] ∧
        pendingUtterances
            (handleTextToSpeech true second secondId
              (handleTextToSpeech true first firstId w).world).world.log =
          pendingUtterances w.log ++ [{ text := first }, { text := second }]) := by
  constructor
  · intro speechSynthesis text messageId
    cases speechSynthesis
    · simp [handleTextToSpeech, emit, effectsSince]
    · cases hs : w.isSpeaking
      · rw [handleTextToSpeech_idle text messageId w hs, effectsSince_append _ _ _ rfl]
        simp
      · rw [handleTextToSpeech_speaking text messageId w hs, effectsSince_append _ _ _ rfl]
        simp
  · intro hs first second firstId secondId
    have h1 := handleTextToSpeech_idle first firstId w hs
    have hs1 : (handleTextToSpeech true first firstId w).world.isSpeaking = false := by
      rw [h1]; exact hs
    have h2 := handleTextToSpeech_idle second secondId _ hs1
    refine ⟨hs1, ?_, ?_⟩
    · rw [h2, h1]
      simp [effectsSince]
    · rw [h2, h1]
      simp only
      rw [pendingUtterances_append_speak, pendingUtterances_append_speak, List.append_assoc]
      rfl

/-- C30 on a fresh dashboard: `Hi!` and then `Welcome` are both submitted. -/
theorem handleTextToSpeech_cancels_iff_speaking_witness :
    (World.initial "session-1").isSpeaking = false ∧
    pendingUtterances
        (handleTextToSpeech true "Welcome" 3
          (handleTextToSpeech true "Hi!" 1 (World.initial "session-1")).world).world.log =
      pendingUtterances (World.initial "session-1").log ++
        [{ text := "Hi!" }, { text := "Welcome" }] :=
  ⟨rfl, ((handleTextToSpeech_cancels_iff_speaking (World.initial "session-1")).2 rfl
    "Hi!" "Welcome" 1 3).2.2⟩

/-! ## The request interceptor -/

theorem Storage.getItem_setItem_self (s : Storage) (key value : String) :
    Storage.getItem (Storage.setItem s key value) key = some value := by
  have hnone : (Storage.removeItem s key).find? (fun kv => kv.1 = key) = none := by
    have := Storage.getItem_removeItem_self s key
    unfold Storage.getItem at this
    simpa using this
  unfold Storage.getItem Storage.setItem
  rw [List.find?_append, hnone]
  simp

theorem Storage.getItem_setItem_other (s : Storage) (key other value : String)
    (hne : key ≠ other) :
    Storage.getItem (Storage.setItem s other value) key = Storage.getItem s key := by
  have hrest := Storage.getItem_removeItem_other s key other hne
  unfold Storage.getItem Storage.setItem at *
  rw [List.find?_append]
  have hlast : List.find? (fun kv : String × String => decide (kv.1 = key)) [(other, value)]
      = none := by
    simp [List.find?_cons, Ne.symm hne]
  rw [hlast, Option.or_none]
  exact hrest

theorem requestInterceptor_token (b : Browser) (config : RequestConfig) (k : String)
    (hk : b.localStorage.getItem "token" = some k) (hne : k ≠ "") :
    requestInterceptor b config = { config with authorization := some ("Bearer " ++ k) } := by
  simp [requestInterceptor, hk, hne]

theorem requestInterceptor_no_token (b : Browser) (config : RequestConfig)
    (hk : b.localStorage.getItem "token" = none) :
    requestInterceptor b config = config := by
  simp [requestInterceptor, hk]

/-- C21: for every request configuration, when storage holds a non-empty token
`k` the request interceptor returns the configuration with the `Authorization`
header set to `Bearer ` followed by `k` and nothing else changed; when no token
is stored, and also when the stored token is the empty string, it returns the
configuration unchanged. -/
theorem requestInterceptor_attaches_bearer (b : Browser) (config : RequestConfig) :
    (∀ k : String, b.localStorage.getItem "token" = some k → k ≠ "" →
      requestInterceptor b config = { config with authorization := some ("Bearer " ++ k) }) ∧
    (b.localStorage.getItem "token" = none → requestInterceptor b config = config) ∧
    (b.localStorage.getItem "token" = some "" → requestInterceptor b config = config) := by
  refine ⟨fun k hk hne => requestInterceptor_token b config k hk hne,
    requestInterceptor_no_token b config, ?_⟩
  intro hk
  simp [requestInterceptor, hk]

/-- C21 on a browser holding the token `abc`, on one holding none, and on one
holding an empty token. -/
theorem requestInterceptor_attaches_bearer_witness :
    requestInterceptor signedInBrowser statusRequest =
      { statusRequest with authorization := some ("Bearer " ++ "abc") } ∧
    requestInterceptor signedOutBrowser statusRequest = statusRequest ∧
    requestInterceptor { signedOutBrowser with localStorage := [("token", "")] } statusRequest
      = statusRequest :=
  ⟨(requestInterceptor_attaches_bearer signedInBrowser statusRequest).1 "abc" (by decide)
     (by decide),
   (requestInterceptor_attaches_bearer signedOutBrowser statusRequest).2.1 (by decide),
   (requestInterceptor_attaches_bearer
     { signedOutBrowser with localStorage := [("token", "")] } statusRequest).2.2 (by decide)⟩

/-! ## Login, signup, logout -/

theorem login_rejected (stringify : UserProfile → String) (error : JsError) (b : Browser)
    (a : AuthState) :
    login stringify (.rejected error) b a =
      { browser := (responseInterceptor (.rejected error : Outcome AuthPayload) b).1,
        auth := a,
        completion := .returned
          { success := false, data := none,
            error := some (orDefault (errorDetail error) "Login failed") } } := by
  simp [login, loginTry, responseInterceptor]

theorem signup_rejected (stringify : UserProfile → String) (error : JsError) (b : Browser)
    (a : AuthState) :
    signup stringify (.rejected error) b a =
      { browser := (responseInterceptor (.rejected error : Outcome AuthPayload) b).1,
        auth := a,
        completion := .returned
          { success := false, data := none,
            error := some (orDefault (errorDetail error) "Signup failed") } } := by
  simp [signup, signupTry, responseInterceptor]

theorem login_success (stringify : UserProfile → String) (u : UserProfile) (k : String)
    (b : Browser) (a : AuthState) :
    login stringify (.resolved ⟨some ⟨u, k⟩⟩) b a =
      { browser :=
          { b with
            localStorage :=
              Storage.setItem (Storage.setItem b.localStorage "token" k) "user" (stringify u)
            defaultAuthorization := some ("Bearer " ++ k) },
        auth := { a with user := some u },
        completion := .returned { success := true, data := some ⟨u, k⟩, error := none } } := by
  simp [login, loginTry, responseInterceptor]

theorem signup_success (stringify : UserProfile → String) (u : UserProfile) (k : String)
    (b : Browser) (a : AuthState) :
    signup stringify (.resolved ⟨some ⟨u, k⟩⟩) b a =
      { browser :=
          { b with
            localStorage :=
              Storage.setItem (Storage.setItem b.localStorage "token" k) "user" (stringify u)
            defaultAuthorization := some ("Bearer " ++ k) },
        auth := { a with user := some u },
        completion := .returned { success := true, data := some ⟨u, k⟩, error := none } } := by
  simp [signup, signupTry, responseInterceptor]

/-- C22: `login` and `signup` return for every way the backend call settles (a
payload, a response without `data`, a rejection): they throw nothing.  When the
call is rejected they return `success: false` with, as `error`, the detail of
the response body when there is one that is not empty, and `Login failed` or
`Signup failed` when there is no response, no body, no detail or an empty
detail; the user of the auth context is left as it was. -/
theorem login_signup_failure (stringify : UserProfile → String) (b : Browser)
    (a : AuthState) :
    (∀ settled : Outcome AuthPayload,
      (∃ result, (login stringify settled b a).completion = .returned result) ∧
      (∃ result, (signup stringify settled b a).completion = .returned result)) ∧
    (∀ error : JsError,
      (login stringify (.rejected error) b a).auth = a ∧
      (signup stringify (.rejected error) b a).auth = a ∧
      (∀ d : String, errorDetail error = some d → d ≠ "" →
        (login stringify (.rejected error) b a).completion =
          .returned { success := false, data := none, error := some d } ∧
        (signup stringify (.rejected error) b a).completion =
          .returned { success := false, data := none, error := some d }) ∧
      (errorDetail error = none ∨ errorDetail error = some "" →
        (login stringify (.rejected error) b a).completion =
          .returned { success := false, data := none, error := some "Login failed" } ∧
        (signup stringify (.rejected error) b a).completion =
          .returned { success := false, data := none, error := some "Signup failed" })) := by
  constructor
  · intro settled
    rcases settled with ⟨_ | ⟨u, k⟩⟩ | error
    · exact ⟨⟨_, by simp [login, loginTry, responseInterceptor]; rfl⟩,
        ⟨_, by simp [signup, signupTry, responseInterceptor]; rfl⟩⟩
    · exact ⟨⟨_, by rw [login_success]⟩, ⟨_, by rw [signup_success]⟩⟩
    · exact ⟨⟨_, by rw [login_rejected]⟩, ⟨_, by rw [signup_rejected]⟩⟩
  · intro error
    rw [login_rejected, signup_rejected]
    refine ⟨rfl, rfl, ?_, ?_⟩
    · intro d hd hne
      simp [hd, orDefault, hne]
    · rintro (hd | hd) <;> simp [hd, orDefault]

/-- C22 for a rejection whose body carries the detail `Invalid credentials`, and
for a timeout, which has no response. -/
theorem login_signup_failure_witness :
    (login exampleStringify (.rejected (detailedError "Invalid credentials")) signedOutBrowser
        AuthState.initial).completion =
      .returned { success := false, data := none, error := some "Invalid credentials" } ∧
    (signup exampleStringify (.rejected timeoutError) signedOutBrowser
        AuthState.initial).completion =
      .returned { success := false, data := none, error := some "Signup failed" } :=
  ⟨(((login_signup_failure exampleStringify signedOutBrowser AuthState.initial).2
      (detailedError "Invalid credentials")).2.2.1 "Invalid credentials" (by decide)
      (by decide)).1,
   (((login_signup_failure exampleStringify signedOutBrowser AuthState.initial).2
      timeoutError).2.2.2 (Or.inl (by decide))).2⟩

theorem authProviderInit_parsed (parse : String → Option (Option UserProfile)) (b : Browser)
    (a : AuthState) (k d : String) (v : Option UserProfile)
    (hk : b.localStorage.getItem "token" = some k) (hkne : k ≠ "")
    (hd : b.localStorage.getItem "user" = some d) (hdne : d ≠ "") (hp : parse d = some v) :
    authProviderInit parse b a =
      ({ b with defaultAuthorization := some ("Bearer " ++ k) },
       { user := v, loading := false }) := by
  simp [authProviderInit, hk, hkne, hd, hdne, hp]

theorem authProviderInit_not_parsed (parse : String → Option (Option UserProfile))
    (b : Browser) (a : AuthState) (k d : String)
    (hk : b.localStorage.getItem "token" = some k) (hkne : k ≠ "")
    (hd : b.localStorage.getItem "user" = some d) (hdne : d ≠ "") (hp : parse d = none) :
    authProviderInit parse b a =
      ({ b with
         localStorage := Storage.removeItem (Storage.removeItem b.localStorage "token") "user"
         defaultAuthorization := some ("Bearer " ++ k) },
       { a with loading := false }) := by
  simp [authProviderInit, hk, hkne, hd, hdne, hp]

theorem authProviderInit_no_user_data (parse : String → Option (Option UserProfile))
    (b : Browser) (a : AuthState) (k : String)
    (hk : b.localStorage.getItem "token" = some k) (hkne : k ≠ "")
    (hd : b.localStorage.getItem "user" = none ∨ b.localStorage.getItem "user" = some "") :
    authProviderInit parse b a =
      ({ b with defaultAuthorization := some ("Bearer " ++ k) }, { a with loading := false }) := by
  rcases hd with hd | hd <;> simp [authProviderInit, hk, hkne, hd]

theorem authProviderInit_no_token (parse : String → Option (Option UserProfile))
    (b : Browser) (a : AuthState)
    (hk : b.localStorage.getItem "token" = none ∨ b.localStorage.getItem "token" = some "") :
    authProviderInit parse b a = (b, { a with loading := false }) := by
  rcases hk with hk | hk <;> simp [authProviderInit, hk]

theorem session_storage (s : Storage) (k text : String) :
    Storage.getItem (Storage.setItem (Storage.setItem s "token" k) "user" text) "token"
      = some k ∧
    Storage.getItem (Storage.setItem (Storage.setItem s "token" k) "user" text) "user"
      = some text :=
  ⟨by rw [Storage.getItem_setItem_other _ _ _ _ (by decide), Storage.getItem_setItem_self],
   Storage.getItem_setItem_self _ _ _⟩

/-- C23: a successful `login`, and likewise `signup`, with the response
`user: u, token: k` stores `k` under `token` and the serialised `u` under
`user`, makes `u` the user of the auth context and returns `success: true`
with the response as `data`.  When `k` is not empty and the serialised `u` is
a non-empty text that parses back to `u`, the application starting again on
the storage left behind has `u` as its user, and the request interceptor puts
`Bearer ` followed by `k` on every later request. -/
theorem login_signup_success (stringify : UserProfile → String)
    (parse : String → Option (Option UserProfile)) (u : UserProfile) (k : String)
    (b : Browser) (a : AuthState) :
    ((login stringify (.resolved ⟨some ⟨u, k⟩⟩) b a).browser.localStorage.getItem "token"
        = some k ∧
     (login stringify (.resolved ⟨some ⟨u, k⟩⟩) b a).browser.localStorage.getItem "user"
        = some (stringify u) ∧
     (login stringify (.resolved ⟨some ⟨u, k⟩⟩) b a).auth.user = some u ∧
     (login stringify (.resolved ⟨some ⟨u, k⟩⟩) b a).completion =
        .returned { success := true, data := some ⟨u, k⟩, error := none }) ∧
    signup stringify (.resolved ⟨some ⟨u, k⟩⟩) b a =
      login stringify (.resolved ⟨some ⟨u, k⟩⟩) b a ∧
    (k ≠ "" → stringify u ≠ "" → parse (stringify u) = some (some u) →
      (appStart parse (login stringify (.resolved ⟨some ⟨u, k⟩⟩) b a).browser).2.user
        = some u ∧
      ∀ config : RequestConfig,
        requestInterceptor (login stringify (.resolved ⟨some ⟨u, k⟩⟩) b a).browser config =
          { config with authorization := some ("Bearer " ++ k) }) := by
  have hs := session_storage b.localStorage k (stringify u)
  refine ⟨?_, ?_, ?_⟩
  · rw [login_success]
    exact ⟨hs.1, hs.2, rfl, rfl⟩
  · rw [login_success, signup_success]
  · intro hk hne hp
    rw [login_success]
    constructor
    · unfold appStart
      rw [authProviderInit_parsed parse _ _ k (stringify u) (some u) hs.1 hk hs.2 hne hp]
    · intro config
      exact requestInterceptor_token _ config k hs.1 hk

/-- C23 for the user `ada` and the token `abc`, on a browser without a session. -/
theorem login_signup_success_witness :
    (appStart exampleParse
      (login exampleStringify (.resolved ⟨some ⟨ada, "abc"⟩⟩) signedOutBrowser
        AuthState.initial).browser).2.user = some ada ∧
    ∀ config : RequestConfig,
      requestInterceptor
          (login exampleStringify (.resolved ⟨some ⟨ada, "abc"⟩⟩) signedOutBrowser
            AuthState.initial).browser config =
        { config with authorization := some ("Bearer " ++ "abc") } :=
  (login_signup_success exampleStringify exampleParse ada "abc" signedOutBrowser
    AuthState.initial).2.2 (by decide) (by decide) (by decide)

/-- C24: however the logout call settles (a response, or a rejection with any
error, status 401 included), `logout` returns without throwing, and afterwards
no token and no user are stored, the default `Authorization` header is
removed, the user of the auth context is null, and the request interceptor
returns every later request configuration unchanged, so it attaches no header. -/
theorem logout_clears_local_session (settled : Outcome Unit) (b : Browser) (a : AuthState) :
    (logout settled b a).completion = .returned () ∧
    (logout settled b a).browser.localStorage.getItem "token" = none ∧
    (logout settled b a).browser.localStorage.getItem "user" = none ∧
    (logout settled b a).browser.defaultAuthorization = none ∧
    (logout settled b a).auth.user = none ∧
    ∀ config : RequestConfig,
      requestInterceptor (logout settled b a).browser config = config := by
  have hshape : ∃ b' : Browser,
      logout settled b a =
        { browser :=
            { b' with
              localStorage :=
                Storage.removeItem (Storage.removeItem b'.localStorage "token") "user"
              defaultAuthorization := none },
          auth := { a with user := none },
          completion := .returned () } := by
    rcases settled with response | error
    · exact ⟨b, by simp [logout, logoutTry, responseInterceptor]⟩
    · exact ⟨(responseInterceptor (.rejected error : Outcome Unit) b).1, by
        simp [logout, logoutTry, responseInterceptor]⟩
  obtain ⟨b', hrun⟩ := hshape
  have htoken : Storage.getItem
      (Storage.removeItem (Storage.removeItem b'.localStorage "token") "user") "token"
      = none := by
    rw [Storage.getItem_removeItem_other _ _ _ (by decide), Storage.getItem_removeItem_self]
  rw [hrun]
  refine ⟨rfl, htoken, Storage.getItem_removeItem_self _ _, rfl, rfl, ?_⟩
  intro config
  exact requestInterceptor_no_token _ config htoken

/-! ## Initialisation of the auth provider -/

/-- C28: the mount effect of the auth provider, on every storage and for every
parser.  Loading ends false.  The user changes only when storage holds a token
and user data, both not empty, and the user data parses; the user is then the
parsed value.  When such a token and such user data are stored and the user
data does not parse, the token and the user data are removed from storage and
the user stays as it was.  When no token is stored, or an empty one, the user
stays as it was and the browser state, storage included, is unchanged.  When a
token is stored and no user data, or empty user data, storage and user stay as
they were. -/
theorem authProviderInit_cases (parse : String → Option (Option UserProfile)) (b : Browser)
    (a : AuthState) :
    (authProviderInit parse b a).2.loading = false ∧
    ((authProviderInit parse b a).2.user ≠ a.user →
      ∃ k d : String,
        b.localStorage.getItem "token" = some k ∧ k ≠ "" ∧
        b.localStorage.getItem "user" = some d ∧ d ≠ "" ∧
        parse d = some (authProviderInit parse b a).2.user) ∧
    (∀ k d : String,
      b.localStorage.getItem "token" = some k → k ≠ "" →
      b.localStorage.getItem "user" = some d → d ≠ "" → parse d = none →
      (authProviderInit parse b a).1.localStorage.getItem "token" = none ∧
      (authProviderInit parse b a).1.localStorage.getItem "user" = none ∧
      (authProviderInit parse b a).2.user = a.user) ∧
    (b.localStorage.getItem "token" = none ∨ b.localStorage.getItem "token" = some "" →
      authProviderInit parse b a = (b, { a with loading := false })) ∧
    (∀ k : String,
      b.localStorage.getItem "token" = some k → k ≠ "" →
      (b.localStorage.getItem "user" = none ∨ b.localStorage.getItem "user" = some "") →
      (authProviderInit parse b a).1.localStorage = b.localStorage ∧
      (authProviderInit parse b a).2.user = a.user) := by
  refine ⟨?_, ?_, ?_, ?_, ?_⟩
  · simp [authProviderInit]
  · intro hchange
    cases hk : b.localStorage.getItem "token" with
    | none =>
      rw [authProviderInit_no_token parse b a (Or.inl hk)] at hchange
      exact absurd rfl hchange
    | some k =>
      by_cases hkne : k = ""
      · subst hkne
        rw [authProviderInit_no_token parse b a (Or.inr hk)] at hchange
        exact absurd rfl hchange
      · cases hd : b.localStorage.getItem "user" with
        | none =>
          rw [authProviderInit_no_user_data parse b a k hk hkne (Or.inl hd)] at hchange
          exact absurd rfl hchange
        | some d =>
          by_cases hdne : d = ""
          · subst hdne
            rw [authProviderInit_no_user_data parse b a k hk hkne (Or.inr hd)] at hchange
            exact absurd rfl hchange
          · cases hp : parse d with
            | none =>
              rw [authProviderInit_not_parsed parse b a k d hk hkne hd hdne hp] at hchange
              exact absurd rfl hchange
            | some v =>
              refine ⟨k, d, rfl, hkne, rfl, hdne, ?_⟩
              rw [authProviderInit_parsed parse b a k d v hk hkne hd hdne hp]
              exact hp
  · intro k d hk hkne hd hdne hp
    rw [authProviderInit_not_parsed parse b a k d hk hkne hd hdne hp]
    refine ⟨?_, Storage.getItem_removeItem_self _ _, rfl⟩
    simp only
    rw [Storage.getItem_removeItem_other _ _ _ (by decide), Storage.getItem_removeItem_self]
  · intro hk
    exact authProviderInit_no_token parse b a hk
  · intro k hk hkne hd
    rw [authProviderInit_no_user_data parse b a k hk hkne hd]
    exact ⟨rfl, rfl⟩

/-- C28 on a browser whose stored user data does not parse, on a browser
without a token, and on a browser holding a session that parses. -/
theorem authProviderInit_cases_witness :
    ((authProviderInit exampleParse damagedBrowser AuthState.initial).1.localStorage.getItem
        "token" = none ∧
      (authProviderInit exampleParse damagedBrowser AuthState.initial).1.localStorage.getItem
        "user" = none ∧
      (authProviderInit exampleParse damagedBrowser AuthState.initial).2.user
        = AuthState.initial.user) ∧
    authProviderInit exampleParse signedOutBrowser AuthState.initial =
      (signedOutBrowser, { AuthState.initial with loading := false }) ∧
    (∃ k d : String,
      (login exampleStringify (.resolved ⟨some ⟨ada, "abc"⟩⟩) signedOutBrowser
        AuthState.initial).browser.localStorage.getItem "token" = some k ∧ k ≠ "" ∧
      (login exampleStringify (.resolved ⟨some ⟨ada, "abc"⟩⟩) signedOutBrowser
        AuthState.initial).browser.localStorage.getItem "user" = some d ∧ d ≠ "" ∧
      exampleParse d = some (authProviderInit exampleParse
        (login exampleStringify (.resolved ⟨some ⟨ada, "abc"⟩⟩) signedOutBrowser
          AuthState.initial).browser AuthState.initial).2.user) :=
  ⟨(authProviderInit_cases exampleParse damagedBrowser AuthState.initial).2.2.1 "abc" "ada"
      (by decide) (by decide) (by decide) (by decide) (by decide),
   (authProviderInit_cases exampleParse signedOutBrowser AuthState.initial).2.2.2.1
      (Or.inl (by decide)),
   (authProviderInit_cases exampleParse
      (login exampleStringify (.resolved ⟨some ⟨ada, "abc"⟩⟩) signedOutBrowser
        AuthState.initial).browser AuthState.initial).2.1 (by decide)⟩

end ChatDashboard
